import Mathlib

/-! Growth engine of the self-organizing tree model (`src/src/Tree.cpp`).

A shallow embedding of `Tree.cpp`.  The C++ `float` is idealised by an
arbitrary field `α` with decidable equality (instantiated at `ℚ` for concrete
evaluation and at `ℝ`, with `Real.rpow` for `std::pow`, for the pipe model).
A `std::unique_ptr<Metamer>` is a value of the inductive type `Metamer`, whose
constructor `null` is the empty pointer.  The marker field (`MarkerSet`, not
part of `Tree.cpp`) is an arbitrary state type `σ` together with its four
operations, passed explicitly.
-/

namespace SelfOrganizing

/-! ## Geometry primitives and identifiers -/

/-- A position in 3-D space. -/
structure Point (α : Type) where
  x : α
  y : α
  z : α
deriving DecidableEq

/-- A directed quantity in 3-D space. -/
structure Vector (α : Type) where
  x : α
  y : α
  z : α
deriving DecidableEq

/-- Modelled from the spec: `Point::translate(dx, dy, dz)` (declared outside `Tree.cpp`)
moves a point componentwise. -/
def Point.translate {α : Type} [Add α] (p : Point α) (dx dy dz : α) : Point α :=
  ⟨p.x + dx, p.y + dy, p.z + dz⟩

/-- Modelled from the spec: the constructor `Vector(a, b)` (declared outside `Tree.cpp`)
is the difference `b - a` of two points. -/
def Vector.ofPoints {α : Type} [Sub α] (a b : Point α) : Vector α :=
  ⟨b.x - a.x, b.y - a.y, b.z - a.z⟩

/-- Modelled from the spec: `Vector::scale(factor)` (declared outside `Tree.cpp`)
multiplies every component by the factor. -/
def Vector.scale {α : Type} [Mul α] (v : Vector α) (factor : α) : Vector α :=
  ⟨v.x * factor, v.y * factor, v.z * factor⟩

/-- Identity of a bud inside the marker field. -/
abbrev BudId := Nat

/-! ## Environment -/

/-- The model constants read by `Tree.cpp` as `Environment::...` (their values are
declared outside `Tree.cpp`, so they are parameters here). -/
structure Constants (α : Type) where
  MetamerLength : α
  PerceptionAngle : α
  PerceptionRadius : α
  OccupancyRadius : α
  BorchertHondaAlpha : α
  BorchertHondaLambda : α

/-- Result of a cone query: the light quantity `q` and the mean direction `v`. -/
structure Analysis (α : Type) where
  q : α
  v : Vector α

/-- The four operations of the marker field used by `Tree.cpp`, over an arbitrary
marker-field state `σ` (the class `MarkerSet` is declared outside `Tree.cpp`). -/
structure MarkerSetOps (σ α : Type) where
  resetAllocations : σ → σ
  updateAllocatedInCone : σ → BudId → Point α → Vector α → α → α → σ
  getAllocatedInCone : σ → BudId → Point α → Vector α → α → α → Analysis α
  removeMarkersInSphere : σ → Point α → α → σ

/-- The mutable part of the environment: the marker field and the source of fresh
bud identities. -/
structure Environment (σ : Type) where
  markerSet : σ
  nextBudId : Nat

/-! ## Metamers -/

/-- The scalar and geometric attributes of one internode. -/
structure MetamerData (α : Type) where
  beginning : Point α
  end_ : Point α
  axillaryId : BudId
  terminalId : BudId
  light : α
  growthResource : α
  axillaryGrowthResource : α
  terminalGrowthResource : α
  width : α
deriving DecidableEq

/-- A `std::unique_ptr<Metamer>`: either the empty pointer or an internode owning its
axillary and terminal children. -/
inductive Metamer (α : Type) where
  | null : Metamer α
  | node (d : MetamerData α) (axillary terminal : Metamer α) : Metamer α
deriving DecidableEq

/-- The test `!metamer` of the source. -/
def Metamer.isNull {α : Type} : Metamer α → Bool
  | .null => true
  | .node _ _ _ => false

/-- Modelled from the spec: the constructor `Metamer(environment, beginning, end)`
(declared outside `Tree.cpp`) builds a childless internode between the two points, with
two fresh, distinct bud identities and all scalar state at zero. -/
def Metamer.create {α σ : Type} [Zero α] (env : Environment σ) (b e : Point α) :
    Metamer α × Environment σ :=
  (.node { beginning := b, end_ := e, axillaryId := env.nextBudId,
           terminalId := env.nextBudId + 1, light := 0, growthResource := 0,
           axillaryGrowthResource := 0, terminalGrowthResource := 0, width := 0 }
      .null .null,
   { env with nextBudId := env.nextBudId + 2 })

/-- Modelled from the spec: `Metamer::countMetamers()` (declared outside `Tree.cpp`) is the
number of internodes of the subtree; the empty pointer counts for none. -/
def Metamer.countMetamers {α : Type} : Metamer α → Nat
  | .null => 0
  | .node _ ax term => 1 + ax.countMetamers + term.countMetamers

/-- The expression `m ? m->light : 0.0f` of the source: the light of a child, zero when
the child is absent. -/
def Metamer.lightOrZero {α : Type} [Zero α] : Metamer α → α
  | .node d _ _ => d.light
  | .null => 0

/-- The assignment `m->growthResource = v`, performed by the source only under the test
`if (m)`: nothing happens to an absent child. -/
def Metamer.withGrowthResource {α : Type} (v : α) : Metamer α → Metamer α
  | .node d ax term => .node { d with growthResource := v } ax term
  | .null => .null

/-- The owner of the root metamer. -/
structure Tree (α : Type) where
  root : Metamer α

section Engine

variable {α σ : Type} [Field α] [DecidableEq α]

/-- Constructor `Tree::Tree(environment, seedlingPosition)`. -/
def Tree.create (c : Constants α) (env : Environment σ) (seedlingPosition : Point α) :
    Tree α × Environment σ :=
  let e := seedlingPosition.translate 0 c.MetamerLength 0
  let r := Metamer.create env seedlingPosition e
  ({ root := r.1 }, r.2)

/-- Source function `Tree::allocateMarkers`: claims markers for every open bud, axillary side first. -/
def allocateMarkers (ms : MarkerSetOps σ α) (c : Constants α) : Metamer α → σ → σ
  | .null, s => s
  | .node d ax term, s =>
    let theta := c.PerceptionAngle
    let r := c.PerceptionRadius
    let s1 :=
      if ax.isNull then
        let direction := Vector.ofPoints d.beginning d.end_
        ms.updateAllocatedInCone s d.axillaryId d.end_ direction theta r
      else allocateMarkers ms c ax s
    if term.isNull then
      let direction := Vector.ofPoints d.beginning d.end_
      ms.updateAllocatedInCone s1 d.terminalId d.end_ direction theta r
    else allocateMarkers ms c term s1

/-- Source function `Tree::propagateLightBasipetally`: children first, then the light of the metamer is
the sum of its two sides. -/
def propagateLightBasipetally (ms : MarkerSetOps σ α) (c : Constants α) (s : σ) :
    Metamer α → Metamer α
  | .null => .null
  | .node d ax term =>
    let ax1 := propagateLightBasipetally ms c s ax
    let term1 := propagateLightBasipetally ms c s term
    let theta := c.PerceptionAngle
    let r := c.PerceptionRadius
    let light0 : α := 0
    let light1 :=
      match ax1 with
      | .null =>
        let direction := Vector.ofPoints d.beginning d.end_
        let budId := d.axillaryId
        light0 + (ms.getAllocatedInCone s budId d.end_ direction theta r).q
      | .node dA _ _ => light0 + dA.light
    let light2 :=
      match term1 with
      | .null =>
        let direction := Vector.ofPoints d.beginning d.end_
        let budId := d.terminalId
        light1 + (ms.getAllocatedInCone s budId d.end_ direction theta r).q
      | .node dT _ _ => light1 + dT.light
    .node { d with light := light2 } ax1 term1

/-- Source function `Tree::propagateGrowthAcropetally`: splits the resource of the given metamer between
its two sides.  The source function contains no recursive call.  The two divisions are
field divisions: they stand for the divisions of the source only where `denominator` is
not zero (at zero the source stores an infinity or a NaN, which a field does not have),
and every theorem below that states the value of a share assumes or exhibits a non-zero
denominator. -/
def propagateGrowthAcropetally (c : Constants α) : Metamer α → Metamer α
  | .null => .null
  | .node d ax term =>
    if ax.isNull && term.isNull then .node d ax term
    else
      let qM : α := term.lightOrZero
      let qL : α := ax.lightOrZero
      if qM + qL = 0 then .node d ax term
      else
        let v := d.growthResource
        let lambda := c.BorchertHondaLambda
        let denominator := lambda * qM + (1 - lambda * qL)
        let vM := v * (lambda * qM) / denominator
        let vL := v * ((1 - lambda) * qL) / denominator
        let ax1 := ax.withGrowthResource vL
        let d1 : MetamerData α :=
          if ax.isNull then { d with axillaryGrowthResource := vL }
          else { d with axillaryGrowthResource := 0 }
        let term1 := term.withGrowthResource vM
        let d2 : MetamerData α :=
          if term.isNull then { d1 with terminalGrowthResource := vM }
          else { d1 with terminalGrowthResource := 0 }
        .node { d2 with growthResource := 0 } ax1 term1

/-- The guard and the denominator of `Tree::propagateGrowthAcropetally` (source lines
76 to 90): `none` when the function returns before its two divisions, otherwise the
value of `denominator` by which both divisions divide. -/
def acropetalDenominator (c : Constants α) : Metamer α → Option α
  | .null => none
  | .node _ ax term =>
    if ax.isNull && term.isNull then none
    else
      let qM : α := term.lightOrZero
      let qL : α := ax.lightOrZero
      if qM + qL = 0 then none
      else
        let lambda := c.BorchertHondaLambda
        some (lambda * qM + (1 - lambda * qL))

/-- Source function `Tree::attemptGrowth`: a new metamer exactly when the cone query reports `q == 1`,
otherwise the empty pointer. -/
def attemptGrowth (ms : MarkerSetOps σ α) (c : Constants α) (budId : BudId)
    (origin : Point α) (direction : Vector α) (env : Environment σ) :
    Metamer α × Environment σ :=
  let theta := c.PerceptionAngle
  let r := c.PerceptionRadius
  let analysis := ms.getAllocatedInCone env.markerSet budId origin direction theta r
  if analysis.q = 1 then
    let shootV := analysis.v.scale c.MetamerLength
    let shootEnd := origin.translate shootV.x shootV.y shootV.z
    let env1 : Environment σ :=
      { env with markerSet := ms.removeMarkersInSphere env.markerSet shootEnd c.OccupancyRadius }
    Metamer.create env1 origin shootEnd
  else (.null, env)

/-- Source function `Tree::performGrowthIteration(std::unique_ptr<Metamer>&)`: the shoot-extension
traversal, axillary side first. -/
def performGrowthIterationMetamer (ms : MarkerSetOps σ α) (c : Constants α) :
    Metamer α → Environment σ → Metamer α × Environment σ
  | .null, env => (.null, env)
  | .node d ax term, env =>
    let r1 :=
      if ax.isNull then
        let direction := Vector.ofPoints d.beginning d.end_
        attemptGrowth ms c d.axillaryId d.end_ direction env
      else performGrowthIterationMetamer ms c ax env
    let r2 :=
      if term.isNull then
        let direction := Vector.ofPoints d.beginning d.end_
        attemptGrowth ms c d.terminalId d.end_ direction r1.2
      else performGrowthIterationMetamer ms c term r1.2
    (.node d r1.1 r2.1, r2.2)

/-- Source function `Tree::updateInternodeWidths`, with `std::pow` and the two file-level constants
`PipeModelExponent`, `PipeModelLeafValue` as parameters. -/
def updateInternodeWidths (pow : α → α → α) (PipeModelExponent PipeModelLeafValue : α) :
    Metamer α → Metamer α
  | .null => .null
  | .node d ax term =>
    let ax1 := updateInternodeWidths pow PipeModelExponent PipeModelLeafValue ax
    let total0 := PipeModelLeafValue
    let total1 := match ax1 with
      | .node dA _ _ => total0 + pow dA.width PipeModelExponent
      | .null => total0
    let term1 := updateInternodeWidths pow PipeModelExponent PipeModelLeafValue term
    let total2 := match term1 with
      | .node dT _ _ => total1 + pow dT.width PipeModelExponent
      | .null => total1
    .node { d with width := pow total2 (1 / PipeModelExponent) } ax1 term1

/-- The constant `PipeModelExponent = 2.5f` of `Tree.cpp`. -/
def PipeModelExponent : α := 5 / 2

/-- The constant `PipeModelLeafValue = 1.0e-8f` of `Tree.cpp`. -/
def PipeModelLeafValue : α := 1 / 100000000

/-- Step 2 of `Tree::performGrowthIteration()` (source lines 18 to 20): basipetal light,
seeding of the root resource, acropetal split.  The source dereferences the root
unconditionally; an empty root has no defined result (`none`). -/
def determineBudFate (ms : MarkerSetOps σ α) (c : Constants α) (s : σ) (root : Metamer α) :
    Option (Metamer α) :=
  match propagateLightBasipetally ms c s root with
  | .null => none
  | .node d ax term =>
    some (propagateGrowthAcropetally c
      (.node { d with growthResource := c.BorchertHondaAlpha * d.light } ax term))

/-- Source function `Tree::performGrowthIteration()`: the phases in source order. -/
def Tree.performGrowthIteration (ms : MarkerSetOps σ α) (c : Constants α)
    (pow : α → α → α) (t : Tree α) (env : Environment σ) :
    Option (Tree α × Environment σ) :=
  let env1 : Environment σ := { env with markerSet := ms.resetAllocations env.markerSet }
  let env2 : Environment σ :=
    { env1 with markerSet := allocateMarkers ms c t.root env1.markerSet }
  match determineBudFate ms c env2.markerSet t.root with
  | none => none
  | some root3 =>
    let r4 := performGrowthIterationMetamer ms c root3 env2
    let root5 := updateInternodeWidths pow PipeModelExponent PipeModelLeafValue r4.1
    some ({ root := root5 }, r4.2)

/-- A number of consecutive calls of `Tree::performGrowthIteration()`. -/
def Tree.performGrowthIterations (ms : MarkerSetOps σ α) (c : Constants α)
    (pow : α → α → α) : Nat → Tree α → Environment σ → Option (Tree α × Environment σ)
  | 0, t, env => some (t, env)
  | n + 1, t, env =>
    match Tree.performGrowthIteration ms c pow t env with
    | none => none
    | some r => Tree.performGrowthIterations ms c pow n r.1 r.2

/-- Source function `Tree::countMetamers()`. -/
def Tree.countMetamers (t : Tree α) : Nat :=
  if t.root.isNull then 0 else t.root.countMetamers

end Engine

/-! ## Specification predicates -/

section Predicates

variable {α σ : Type}

/-- The contribution of one side to the light of a metamer: the `q` of the cone query of
the bud when the side is open, the light of the child when it is closed. -/
def sideLight [Sub α] (ms : MarkerSetOps σ α) (c : Constants α) (s : σ) (d : MetamerData α)
    (budId : BudId) : Metamer α → α
  | .null =>
    (ms.getAllocatedInCone s budId d.end_ (Vector.ofPoints d.beginning d.end_)
      c.PerceptionAngle c.PerceptionRadius).q
  | .node dC _ _ => dC.light

/-- Every metamer of the tree has as light the sum of the contributions of its two
sides. -/
def LightFold [Add α] [Sub α] (ms : MarkerSetOps σ α) (c : Constants α) (s : σ) : Metamer α → Prop
  | .null => True
  | .node d ax term =>
    d.light = sideLight ms c s d d.axillaryId ax + sideLight ms c s d d.terminalId term
      ∧ LightFold ms c s ax ∧ LightFold ms c s term

/-- The second tree is the first one with other values of `light` and nothing else
changed: the same metamers at the same positions, every other attribute as it was. -/
def SameExceptLight : Metamer α → Metamer α → Prop
  | .null, .null => True
  | .null, .node _ _ _ => False
  | .node _ _ _, .null => False
  | .node d a b, .node d1 a1 b1 =>
    d1 = { d with light := d1.light } ∧ SameExceptLight a a1 ∧ SameExceptLight b b1

/-- The second tree is the first one with other values of `width` and nothing else
changed: the same metamers at the same positions, every other attribute as it was. -/
def SameExceptWidth : Metamer α → Metamer α → Prop
  | .null, .null => True
  | .null, .node _ _ _ => False
  | .node _ _ _, .null => False
  | .node d a b, .node d1 a1 b1 =>
    d1 = { d with width := d1.width } ∧ SameExceptWidth a a1 ∧ SameExceptWidth b b1

/-- The tree with its geometry, bud identities and children, and all scalar state
(light, resources, width) erased. -/
def Metamer.shape [Zero α] : Metamer α → Metamer α
  | .null => .null
  | .node d ax term =>
    .node { d with light := 0, growthResource := 0, axillaryGrowthResource := 0,
                   terminalGrowthResource := 0, width := 0 } ax.shape term.shape

/-- The metamer at the root of the subtree, when present, has a positive width. -/
def rootWidthPositive [Zero α] [LT α] : Metamer α → Prop
  | .null => True
  | .node d _ _ => 0 < d.width

/-- The child, when present, is no wider than `w`. -/
def childNoWiderThan [LE α] (w : α) : Metamer α → Prop
  | .null => True
  | .node dC _ _ => dC.width ≤ w

/-- Every metamer of the tree is at least as wide as each of its present children. -/
def WidthMonotone [LE α] : Metamer α → Prop
  | .null => True
  | .node d ax term =>
    childNoWiderThan d.width ax ∧ childNoWiderThan d.width term
      ∧ WidthMonotone ax ∧ WidthMonotone term

/-- The contribution of a side as the width claim words it: the leaf value for an open
side, the child width raised to the exponent for a closed side. -/
def claimedContribution (pow : α → α → α) (e leaf : α) : Metamer α → α
  | .null => leaf
  | .node dC _ _ => pow dC.width e

/-- The width formula as the claim words it, at every metamer of the tree. -/
def ClaimedPipeModel [Add α] [One α] [Div α] (pow : α → α → α) (e leaf : α) :
    Metamer α → Prop
  | .null => True
  | .node d ax term =>
    d.width = pow (claimedContribution pow e leaf ax + claimedContribution pow e leaf term)
        (1 / e)
      ∧ ClaimedPipeModel pow e leaf ax ∧ ClaimedPipeModel pow e leaf term

/-- What a closed side adds to the leaf value in the source: the child width raised to
the exponent; an open side adds nothing. -/
def closedContribution [Zero α] (pow : α → α → α) (e : α) : Metamer α → α
  | .null => 0
  | .node dC _ _ => pow dC.width e

/-- The width of every metamer of the tree is the `1 / e` power of one leaf value plus
what its closed sides add. -/
def WidthsComputed [Add α] [Zero α] [One α] [Div α] (pow : α → α → α) (e leaf : α) :
    Metamer α → Prop
  | .null => True
  | .node d ax term =>
    d.width = pow (leaf + closedContribution pow e ax + closedContribution pow e term) (1 / e)
      ∧ WidthsComputed pow e leaf ax ∧ WidthsComputed pow e leaf term

/-- The width formula of the source at every metamer of the tree: one leaf value plus
what the closed sides add, both as the width and as the width raised to the exponent. -/
def PipeModel [Add α] [Zero α] [One α] [Div α] (pow : α → α → α) (e leaf : α) :
    Metamer α → Prop
  | .null => True
  | .node d ax term =>
    d.width = pow (leaf + closedContribution pow e ax + closedContribution pow e term) (1 / e)
      ∧ pow d.width e = leaf + closedContribution pow e ax + closedContribution pow e term
      ∧ PipeModel pow e leaf ax ∧ PipeModel pow e leaf term

end Predicates


/-! ## Example inputs -/

section Examples

variable (α : Type) [Field α]

/-- Constants with unit lengths and radii, `BorchertHondaAlpha = 1` and
`BorchertHondaLambda = 1/2`. -/
def exampleConstants : Constants α :=
  { MetamerLength := 1, PerceptionAngle := 1, PerceptionRadius := 1, OccupancyRadius := 1,
    BorchertHondaAlpha := 1, BorchertHondaLambda := 1 / 2 }

/-- A marker field without state whose every cone query reports the light `q` and the
upward mean direction. -/
def constantLight (q : α) : MarkerSetOps Unit α :=
  { resetAllocations := fun s => s
    updateAllocatedInCone := fun s _ _ _ _ _ => s
    getAllocatedInCone := fun _ _ _ _ _ _ => { q := q, v := ⟨0, 1, 0⟩ }
    removeMarkersInSphere := fun s _ _ => s }

/-- An environment over the stateless marker field. -/
def exampleEnvironment : Environment Unit := { markerSet := (), nextBudId := 0 }

/-- Data of a vertical unit segment starting at height `h`, with the given bud identities,
light and growth resource. -/
def segment (h : α) (axillaryId terminalId : BudId) (light growthResource : α) :
    MetamerData α :=
  { beginning := ⟨0, h, 0⟩, end_ := ⟨0, h + 1, 0⟩, axillaryId := axillaryId,
    terminalId := terminalId, light := light, growthResource := growthResource,
    axillaryGrowthResource := 0, terminalGrowthResource := 0, width := 0 }

/-- A metamer holding the resource 4 whose two sides are closed, each child with light 2
(two fully lit open buds). -/
def seededFork : Metamer α :=
  .node (segment α 0 0 1 4 4)
    (.node (segment α 1 2 3 2 0) .null .null)
    (.node (segment α 1 4 5 2 0) .null .null)

/-- A chain of three metamers along the terminal side: root, child, grandchild. -/
def chainOfThree : Metamer α :=
  .node (segment α 0 0 1 0 0) .null
    (.node (segment α 1 2 3 0 0) .null
      (.node (segment α 2 4 5 0 0) .null .null))

/-- A metamer whose axillary side is closed by a child of light 2 and whose terminal bud
is open. -/
def lateralOnly : Metamer α :=
  .node (segment α 0 0 1 2 2) (.node (segment α 1 2 3 2 0) .null .null) .null

end Examples

/-! ## Recorded marker-field calls and relations between two trees -/

section Traces

variable {α σ : Type}

/-- A mutating call on the marker field, with its arguments. -/
inductive Call (α : Type) where
  | reset : Call α
  | update (budId : BudId) (origin : Point α) (direction : Vector α) (theta r : α) : Call α
  | remove (center : Point α) (radius : α) : Call α
deriving DecidableEq

/-- A marker field whose state is the list of the mutating calls made so far, oldest first.
Its cone queries are answered by an arbitrary function of that history and of the
arguments of the query. -/
def recordingMarkerSet
    (answer : List (Call α) → BudId → Point α → Vector α → α → α → Analysis α) :
    MarkerSetOps (List (Call α)) α :=
  { resetAllocations := fun log => log ++ [Call.reset]
    updateAllocatedInCone := fun log b o d theta r => log ++ [Call.update b o d theta r]
    getAllocatedInCone := answer
    removeMarkersInSphere := fun log p r => log ++ [Call.remove p r] }

/-- The claim of one open bud of a metamer: its identity, the end of the metamer, the
direction of the metamer and the perception constants. -/
def budClaim [Sub α] (c : Constants α) (d : MetamerData α) (budId : BudId) : Call α :=
  Call.update budId d.end_ (Vector.ofPoints d.beginning d.end_)
    c.PerceptionAngle c.PerceptionRadius

/-- The claims of the open buds of a tree, depth first, the axillary side of every metamer
before its terminal side; a closed side contributes the claims of its child. -/
def openBudClaims [Sub α] (c : Constants α) : Metamer α → List (Call α)
  | .null => []
  | .node d ax term =>
    (if ax.isNull then [budClaim c d d.axillaryId] else openBudClaims c ax)
      ++ (if term.isNull then [budClaim c d d.terminalId] else openBudClaims c term)

/-- The number of open buds of a tree. -/
def countOpenBuds : Metamer α → Nat
  | .null => 0
  | .node _ ax term =>
    (if ax.isNull then 1 else countOpenBuds ax)
      + (if term.isNull then 1 else countOpenBuds term)

/-- The data of the metamer a pointer leads to, as a list of at most one element. -/
def Metamer.rootData : Metamer α → List (MetamerData α)
  | .null => []
  | .node d _ _ => [d]

/-- The metamers of the second tree that stand where the first tree has an open bud, in
traversal order (axillary side first). -/
def newShoots : Metamer α → Metamer α → List (MetamerData α)
  | .node _ a b, .node _ a1 b1 =>
    (if a.isNull then a1.rootData else newShoots a a1)
      ++ (if b.isNull then b1.rootData else newShoots b b1)
  | .node _ _ _, .null => []
  | .null, _ => []

/-- Two metamers have the same endpoints and the same bud identities. -/
def sameSegment (d d1 : MetamerData α) : Prop :=
  d.beginning = d1.beginning ∧ d.end_ = d1.end_
    ∧ d.axillaryId = d1.axillaryId ∧ d.terminalId = d1.terminalId

/-- The first tree is embedded in the second: every metamer of the first is found at the
same position of the second with the same endpoints and bud identities, so every closed
side of the first is closed in the second. -/
def Embedded : Metamer α → Metamer α → Prop
  | .null, _ => True
  | .node _ _ _, .null => False
  | .node d a b, .node d1 a1 b1 => sameSegment d d1 ∧ Embedded a a1 ∧ Embedded b b1

/-- A pointer that is empty or leads to a metamer without children. -/
def Metamer.childless : Metamer α → Prop
  | .null => True
  | .node _ a b => a = .null ∧ b = .null

/-- Whatever the second tree has where the first has an open bud is a metamer without
children (or nothing). -/
def NewShootsChildless : Metamer α → Metamer α → Prop
  | .null, _ => True
  | .node _ _ _, .null => True
  | .node _ a b, .node _ a1 b1 =>
    (if a.isNull then a1.childless else NewShootsChildless a a1)
      ∧ (if b.isNull then b1.childless else NewShootsChildless b b1)

/-- The first vector is a positive multiple of the second. -/
def PositiveMultiple [Zero α] [LT α] [Mul α] (u w : Vector α) : Prop :=
  ∃ k : α, 0 < k ∧ u = w.scale k

end Traces

section GrowthQueries

variable {α σ : Type} [Field α] [DecidableEq α]

/-- The light quantities returned by the growth queries of the shoot-extension traversal,
in the order in which the source makes them: one per open bud, each read from the marker
field as the traversal has left it at that moment. -/
def growthQueries (ms : MarkerSetOps σ α) (c : Constants α) :
    Metamer α → Environment σ → List α
  | .null, _ => []
  | .node d ax term, env =>
    let direction := Vector.ofPoints d.beginning d.end_
    let qsA :=
      if ax.isNull then
        [(ms.getAllocatedInCone env.markerSet d.axillaryId d.end_ direction
          c.PerceptionAngle c.PerceptionRadius).q]
      else growthQueries ms c ax env
    let env1 :=
      if ax.isNull then (attemptGrowth ms c d.axillaryId d.end_ direction env).2
      else (performGrowthIterationMetamer ms c ax env).2
    let qsT :=
      if term.isNull then
        [(ms.getAllocatedInCone env1.markerSet d.terminalId d.end_ direction
          c.PerceptionAngle c.PerceptionRadius).q]
      else growthQueries ms c term env1
    qsA ++ qsT

end GrowthQueries

section MoreExamples

variable (α : Type) [Field α]

/-- A marker field without state whose every cone query reports the light `q` and the mean
direction `v`. -/
def directedLight (q : α) (v : Vector α) : MarkerSetOps Unit α :=
  { resetAllocations := fun s => s
    updateAllocatedInCone := fun s _ _ _ _ _ => s
    getAllocatedInCone := fun _ _ _ _ _ _ => { q := q, v := v }
    removeMarkersInSphere := fun s _ _ => s }

/-- A root whose terminal bud is open and whose axillary child carries two childless
children. -/
def lateralBush : Metamer α :=
  .node (segment α 0 0 1 0 0)
    (.node (segment α 1 2 3 0 0)
      (.node (segment α 2 4 5 0 0) .null .null)
      (.node (segment α 2 6 7 0 0) .null .null))
    .null

/-- A single metamer with both buds open. -/
def seedlingRoot : Metamer α := .node (segment α 0 0 1 0 0) .null .null

end MoreExamples

/-! ## Shoot extension is gated by the cone query -/

section Gating

variable {α σ : Type} [Field α] [DecidableEq α]

end Gating

/-! ## Basipetal light -/

section Light

variable {α σ : Type} [Field α]

/-- The basipetal pass returns the tree it was given with new values of `light` only. -/
theorem propagateLight_sameExceptLight (ms : MarkerSetOps σ α) (c : Constants α) (s : σ)
    (t : Metamer α) : SameExceptLight t (propagateLightBasipetally ms c s t) := by
  induction t with
  | null => trivial
  | node d ax term ihA ihT =>
    simp only [propagateLightBasipetally, SameExceptLight]
    exact ⟨trivial, ihA, ihT⟩

/-- C2 (basipetal light is a bottom-up fold): `propagateLightBasipetally`, in any fixed
marker-field state, returns the tree it was given, every metamer at its position with all
attributes but `light` as they were, and in the result the light of every metamer is the
contribution of its axillary side plus that of its terminal side, a closed side
contributing the light its child got in the same pass and an open side the `q` of the cone
query of its bud. -/
theorem basipetal_light_fold (ms : MarkerSetOps σ α) (c : Constants α) (s : σ)
    (t : Metamer α) :
    SameExceptLight t (propagateLightBasipetally ms c s t)
      ∧ LightFold ms c s (propagateLightBasipetally ms c s t) := by
  refine ⟨propagateLight_sameExceptLight ms c s t, ?_⟩
  induction t with
  | null => simp [propagateLightBasipetally, LightFold]
  | node d ax term ihA ihT =>
    simp only [propagateLightBasipetally, LightFold]
    refine ⟨?_, ihA, ihT⟩
    cases hA : propagateLightBasipetally ms c s ax <;>
      cases hT : propagateLightBasipetally ms c s term <;>
      simp [sideLight]

end Light

/-! ## Acropetal resource split -/

section Acropetal

/-- C3 (conservation), evaluated on the source: a metamer holding the resource `4` whose two
children both have light `2` hands `4` to each child with `BorchertHondaLambda = 1/2`, and
`4 + 4` is not the pre-split `4`. -/
theorem acropetal_split_not_conserved :
    propagateGrowthAcropetally (exampleConstants ℚ) (seededFork ℚ) =
      .node (segment ℚ 0 0 1 4 0)
        (.node (segment ℚ 1 2 3 2 4) .null .null)
        (.node (segment ℚ 1 4 5 2 4) .null .null)
      ∧ (4 : ℚ) + 4 ≠ 4 := by
  constructor
  · simp [propagateGrowthAcropetally, exampleConstants, seededFork, segment, Metamer.isNull,
      Metamer.lightOrZero, Metamer.withGrowthResource]
    norm_num
  · norm_num

/-- C4 (tree-wide acropetal propagation), evaluated on the source: on a chain of three
metamers with every cone query at `q = 1/2`, step 2 of the iteration seeds the root with
`2` and hands `6/7` to the child; the child keeps that value instead of forwarding it, and
the grandchild, of light `1`, still holds the resource `0` it had before. -/
theorem acropetal_stops_below_root :
    determineBudFate (constantLight ℚ (1 / 2)) (exampleConstants ℚ) () (chainOfThree ℚ) =
      some (.node (segment ℚ 0 0 1 2 0) .null
        (.node (segment ℚ 1 2 3 (3 / 2) (6 / 7)) .null
          (.node (segment ℚ 2 4 5 1 0) .null .null))) := by
  simp [determineBudFate, propagateLightBasipetally, propagateGrowthAcropetally,
    exampleConstants, constantLight, chainOfThree, segment, Metamer.isNull,
    Metamer.lightOrZero, Metamer.withGrowthResource]
  norm_num

/-- C6 (no division by zero), evaluated on the source: with `BorchertHondaLambda = 1/2`, an
axillary child of light `2` and an open terminal bud, the guard is passed and the two
divisions are by the denominator `0`. -/
theorem acropetal_denominator_zero :
    acropetalDenominator (exampleConstants ℚ) (lateralOnly ℚ) = some 0 := by
  simp [acropetalDenominator, exampleConstants, lateralOnly, segment, Metamer.isNull,
    Metamer.lightOrZero]

end Acropetal


section LightNull

variable {α σ : Type} [Field α]

/-- The basipetal pass neither creates nor removes a metamer at the root of a subtree. -/
theorem propagateLight_isNull (ms : MarkerSetOps σ α) (c : Constants α) (s : σ)
    (t : Metamer α) : (propagateLightBasipetally ms c s t).isNull = t.isNull := by
  cases t <;> simp [propagateLightBasipetally, Metamer.isNull]

end LightNull

section RootSplit

variable {α σ : Type} [Field α] [DecidableEq α]

/-- C5 as worded, refuted on the source: with every cone query at `q = 1` and
`BorchertHondaLambda = 1/2`, the basipetal pass gives a root with an open terminal bud and
a childless axillary child the lights 3 and 2, the root has a closed side and
`qM + qL = 0 + 2` is not zero, yet `denom = lambda * qM + (1 - lambda * qL)` is zero while
the numerator of the axillary share is 3: no number is the quotient the claim gives to the
axillary child. -/
theorem acropetal_root_split_undefined :
    propagateLightBasipetally (constantLight ℚ 1) (exampleConstants ℚ) () (lateralOnly ℚ)
      = .node (segment ℚ 0 0 1 3 2) (.node (segment ℚ 1 2 3 2 0) .null .null) .null
    ∧ (0 : ℚ) + 2 ≠ 0
    ∧ (exampleConstants ℚ).BorchertHondaLambda * 0
        + (1 - (exampleConstants ℚ).BorchertHondaLambda * 2) = 0
    ∧ ∀ g : ℚ,
        g * ((exampleConstants ℚ).BorchertHondaLambda * 0
              + (1 - (exampleConstants ℚ).BorchertHondaLambda * 2))
          ≠ (exampleConstants ℚ).BorchertHondaAlpha * 3
              * ((1 - (exampleConstants ℚ).BorchertHondaLambda) * 2) := by
  refine ⟨?_, by norm_num, by norm_num [exampleConstants], ?_⟩
  · simp [propagateLightBasipetally, constantLight, lateralOnly, segment]
    norm_num
  · intro g
    norm_num [exampleConstants]

/-- C5 (acropetal split at the root, amended): step 2 of the iteration on a root with a
closed side, where `qM` and `qL` are the lights of the children after the basipetal pass
(zero for an absent child), `qM + qL` is not zero and
`denom = lambda * qM + (1 - lambda * qL)` is not zero, with
`v = BorchertHondaAlpha * root.light`: the root ends with growth resource `0`; a closed
terminal child holds `v * (lambda * qM) / denom` and the terminal earmark of the root is
`0`; an open terminal side has that value, with `qM = 0`, as earmark; the axillary side is
treated in the same way with `v * ((1 - lambda) * qL) / denom`.  The three cases (both
sides closed, only the axillary side closed, only the terminal side closed) are given with
the whole resulting tree. -/
theorem acropetal_root_split (ms : MarkerSetOps σ α) (c : Constants α) (s : σ)
    (d : MetamerData α) :
    (∀ (ax term : Metamer α) (dA dT : MetamerData α) (aA bA aT bT : Metamer α),
      propagateLightBasipetally ms c s ax = .node dA aA bA →
      propagateLightBasipetally ms c s term = .node dT aT bT →
      dT.light + dA.light ≠ 0 →
      c.BorchertHondaLambda * dT.light + (1 - c.BorchertHondaLambda * dA.light) ≠ 0 →
      determineBudFate ms c s (.node d ax term) =
        (let v := c.BorchertHondaAlpha * (dA.light + dT.light)
         let lambda := c.BorchertHondaLambda
         let denom := lambda * dT.light + (1 - lambda * dA.light)
         some (.node
           { d with light := dA.light + dT.light, growthResource := 0,
                    axillaryGrowthResource := 0, terminalGrowthResource := 0 }
           (.node { dA with growthResource := v * ((1 - lambda) * dA.light) / denom } aA bA)
           (.node { dT with growthResource := v * (lambda * dT.light) / denom } aT bT)))) ∧
    (∀ (ax : Metamer α) (dA : MetamerData α) (aA bA : Metamer α),
      propagateLightBasipetally ms c s ax = .node dA aA bA →
      0 + dA.light ≠ 0 →
      c.BorchertHondaLambda * 0 + (1 - c.BorchertHondaLambda * dA.light) ≠ 0 →
      determineBudFate ms c s (.node d ax .null) =
        (let qT := (ms.getAllocatedInCone s d.terminalId d.end_
            (Vector.ofPoints d.beginning d.end_) c.PerceptionAngle c.PerceptionRadius).q
         let v := c.BorchertHondaAlpha * (dA.light + qT)
         let lambda := c.BorchertHondaLambda
         let denom := lambda * 0 + (1 - lambda * dA.light)
         some (.node
           { d with light := dA.light + qT, growthResource := 0,
                    axillaryGrowthResource := 0,
                    terminalGrowthResource := v * (lambda * 0) / denom }
           (.node { dA with growthResource := v * ((1 - lambda) * dA.light) / denom } aA bA)
           .null))) ∧
    (∀ (term : Metamer α) (dT : MetamerData α) (aT bT : Metamer α),
      propagateLightBasipetally ms c s term = .node dT aT bT →
      dT.light + 0 ≠ 0 →
      c.BorchertHondaLambda * dT.light + (1 - c.BorchertHondaLambda * 0) ≠ 0 →
      determineBudFate ms c s (.node d .null term) =
        (let qA := (ms.getAllocatedInCone s d.axillaryId d.end_
            (Vector.ofPoints d.beginning d.end_) c.PerceptionAngle c.PerceptionRadius).q
         let v := c.BorchertHondaAlpha * (qA + dT.light)
         let lambda := c.BorchertHondaLambda
         let denom := lambda * dT.light + (1 - lambda * 0)
         some (.node
           { d with light := qA + dT.light, growthResource := 0,
                    axillaryGrowthResource := v * ((1 - lambda) * 0) / denom,
                    terminalGrowthResource := 0 }
           .null
           (.node { dT with growthResource := v * (lambda * dT.light) / denom } aT bT)))) := by
  refine ⟨?_, ?_, ?_⟩
  · intro ax term dA dT aA bA aT bT hA hT hq _
    simp [determineBudFate, propagateLightBasipetally, propagateGrowthAcropetally, hA, hT,
      hq, Metamer.isNull, Metamer.lightOrZero, Metamer.withGrowthResource]
  · intro ax dA aA bA hA hq _
    have hq1 : dA.light ≠ 0 := by simpa using hq
    simp [determineBudFate, propagateLightBasipetally, propagateGrowthAcropetally, hA,
      hq1, Metamer.isNull, Metamer.lightOrZero, Metamer.withGrowthResource]
  · intro term dT aT bT hT hq _
    have hq1 : dT.light ≠ 0 := by simpa using hq
    simp [determineBudFate, propagateLightBasipetally, propagateGrowthAcropetally, hT,
      hq1, Metamer.isNull, Metamer.lightOrZero, Metamer.withGrowthResource]

/-- Witness of C5: the root of a fork whose two childless children are fully lit; the
denominator is `1/2 * 2 + (1 - 1/2 * 2) = 1`. -/
theorem acropetal_root_split_witness :
    (2 : ℚ) + 2 ≠ 0 ∧ (1 / 2 : ℚ) * 2 + (1 - 1 / 2 * 2) ≠ 0 ∧
    determineBudFate (constantLight ℚ 1) (exampleConstants ℚ) () (seededFork ℚ) =
      some (.node (segment ℚ 0 0 1 4 0)
        (.node (segment ℚ 1 2 3 2 4) .null .null)
        (.node (segment ℚ 1 4 5 2 4) .null .null)) := by
  refine ⟨by norm_num, by norm_num, ?_⟩
  have hA : propagateLightBasipetally (constantLight ℚ 1) (exampleConstants ℚ) ()
      (.node (segment ℚ 1 2 3 2 0) .null .null) = .node (segment ℚ 1 2 3 2 0) .null .null := by
    simp [propagateLightBasipetally, constantLight, segment]
    norm_num
  have hT : propagateLightBasipetally (constantLight ℚ 1) (exampleConstants ℚ) ()
      (.node (segment ℚ 1 4 5 2 0) .null .null) = .node (segment ℚ 1 4 5 2 0) .null .null := by
    simp [propagateLightBasipetally, constantLight, segment]
    norm_num
  have h := (acropetal_root_split (constantLight ℚ 1) (exampleConstants ℚ) ()
    (segment ℚ 0 0 1 4 4)).1 _ _ _ _ _ _ _ _ hA hT
    (by simp [segment]) (by norm_num [segment, exampleConstants])
  rw [seededFork, h]
  simp [exampleConstants, segment]
  norm_num

end RootSplit


/-! ## Tree shape -/

section Shape

variable {α σ : Type} [Field α]

/-- The number of metamers depends on the shape only. -/
theorem countMetamers_shape (t : Metamer α) : t.shape.countMetamers = t.countMetamers := by
  induction t with
  | null => rfl
  | node d ax term ihA ihT => simp [Metamer.shape, Metamer.countMetamers, ihA, ihT]

/-- The shape of a subtree is empty exactly when the subtree is. -/
theorem isNull_shape (t : Metamer α) : t.shape.isNull = t.isNull := by
  cases t <;> rfl

/-- The basipetal pass keeps the shape. -/
theorem propagateLight_shape (ms : MarkerSetOps σ α) (c : Constants α) (s : σ)
    (t : Metamer α) : (propagateLightBasipetally ms c s t).shape = t.shape := by
  induction t with
  | null => rfl
  | node d ax term ihA ihT => simp [propagateLightBasipetally, Metamer.shape, ihA, ihT]

/-- Writing a growth resource keeps the shape. -/
theorem withGrowthResource_shape (v : α) (t : Metamer α) :
    (t.withGrowthResource v).shape = t.shape := by
  cases t <;> simp [Metamer.withGrowthResource, Metamer.shape]

/-- The width pass keeps the shape. -/
theorem updateInternodeWidths_shape (pow : α → α → α) (e leaf : α) (t : Metamer α) :
    (updateInternodeWidths pow e leaf t).shape = t.shape := by
  induction t with
  | null => rfl
  | node d ax term ihA ihT => simp [updateInternodeWidths, Metamer.shape, ihA, ihT]

/-- The count of a tree depends on the shape of its root only. -/
theorem Tree.countMetamers_of_shape (t t1 : Tree α) (h : t1.root.shape = t.root.shape) :
    t1.countMetamers = t.countMetamers := by
  unfold Tree.countMetamers
  rw [← isNull_shape t1.root, ← isNull_shape t.root, ← countMetamers_shape t1.root,
    ← countMetamers_shape t.root, h]

end Shape

section ShapeDec

variable {α σ : Type} [Field α] [DecidableEq α]

/-- The acropetal split keeps the shape. -/
theorem propagateGrowth_shape (c : Constants α) (t : Metamer α) :
    (propagateGrowthAcropetally c t).shape = t.shape := by
  cases t with
  | null => rfl
  | node d ax term =>
    simp only [propagateGrowthAcropetally]
    split
    · rfl
    · split
      · rfl
      · cases ax <;> cases term <;>
          simp [Metamer.shape, Metamer.withGrowthResource, Metamer.isNull]

/-- Step 2 of the iteration succeeds on a non-empty root and keeps the shape. -/
theorem determineBudFate_shape (ms : MarkerSetOps σ α) (c : Constants α) (s : σ)
    (t : Metamer α) (ht : t.isNull = false) :
    ∃ r, determineBudFate ms c s t = some r ∧ r.shape = t.shape := by
  cases t with
  | null => simp [Metamer.isNull] at ht
  | node d ax term =>
    have hs := propagateLight_shape ms c s (.node d ax term)
    unfold determineBudFate
    cases hp : propagateLightBasipetally ms c s (.node d ax term) with
    | null => simp [propagateLightBasipetally] at hp
    | node d1 ax1 term1 =>
      refine ⟨_, rfl, ?_⟩
      rw [propagateGrowth_shape, ← hs, hp]
      simp [Metamer.shape]

/-- When no cone query reports `q = 1`, `attemptGrowth` returns the empty pointer and the
environment as it was. -/
theorem attemptGrowth_starved (ms : MarkerSetOps σ α) (c : Constants α)
    (hq : ∀ s b o dir theta r, (ms.getAllocatedInCone s b o dir theta r).q ≠ 1)
    (budId : BudId) (origin : Point α) (direction : Vector α) (env : Environment σ) :
    attemptGrowth ms c budId origin direction env = (.null, env) := by
  simp [attemptGrowth, hq]

/-- When no cone query reports `q = 1`, the shoot-extension traversal changes neither the
tree nor the environment. -/
theorem performGrowthIterationMetamer_starved (ms : MarkerSetOps σ α) (c : Constants α)
    (hq : ∀ s b o dir theta r, (ms.getAllocatedInCone s b o dir theta r).q ≠ 1)
    (t : Metamer α) (env : Environment σ) :
    performGrowthIterationMetamer ms c t env = (t, env) := by
  induction t generalizing env with
  | null => rfl
  | node d ax term ihA ihT =>
    simp only [performGrowthIterationMetamer, attemptGrowth_starved ms c hq, ihA, ihT]
    cases ax <;> cases term <;> simp [Metamer.isNull]

/-- One starved iteration succeeds on a non-empty root and keeps the shape. -/
theorem performGrowthIteration_starved (ms : MarkerSetOps σ α) (c : Constants α)
    (pow : α → α → α)
    (hq : ∀ s b o dir theta r, (ms.getAllocatedInCone s b o dir theta r).q ≠ 1)
    (t : Tree α) (env : Environment σ) (hroot : t.root.isNull = false) :
    ∃ t1 env1, Tree.performGrowthIteration ms c pow t env = some (t1, env1)
      ∧ t1.root.shape = t.root.shape := by
  obtain ⟨r, hr, hs⟩ := determineBudFate_shape ms c
    (allocateMarkers ms c t.root (ms.resetAllocations env.markerSet)) t.root hroot
  have h : Tree.performGrowthIteration ms c pow t env =
      some ({ root := updateInternodeWidths pow PipeModelExponent PipeModelLeafValue r },
        { env with markerSet :=
            allocateMarkers ms c t.root (ms.resetAllocations env.markerSet) }) := by
    simp only [Tree.performGrowthIteration, hr, performGrowthIterationMetamer_starved ms c hq]
  exact ⟨_, _, h, by simp [updateInternodeWidths_shape, hs]⟩

/-- Any number of starved iterations succeeds on a non-empty root and keeps the shape. -/
theorem performGrowthIterations_starved (ms : MarkerSetOps σ α) (c : Constants α)
    (pow : α → α → α)
    (hq : ∀ s b o dir theta r, (ms.getAllocatedInCone s b o dir theta r).q ≠ 1)
    (n : Nat) (t : Tree α) (env : Environment σ) (hroot : t.root.isNull = false) :
    ∃ t1 env1, Tree.performGrowthIterations ms c pow n t env = some (t1, env1)
      ∧ t1.root.shape = t.root.shape := by
  induction n generalizing t env with
  | zero => exact ⟨t, env, rfl, rfl⟩
  | succ n ih =>
    obtain ⟨t1, env1, h1, hs1⟩ := performGrowthIteration_starved ms c pow hq t env hroot
    have hroot1 : t1.root.isNull = false := by
      rw [← isNull_shape, hs1, isNull_shape, hroot]
    obtain ⟨t2, env2, h2, hs2⟩ := ih t1 env1 hroot1
    refine ⟨t2, env2, ?_, hs2.trans hs1⟩
    simp only [Tree.performGrowthIterations, h1]
    exact h2

end ShapeDec


/-! ## Scenarios -/

section Scenarios

variable {α σ : Type} [Field α] [DecidableEq α]

/-- C7 (seedling scenario): the tree built from a seedling point is a single metamer from
that point to the point `MetamerLength` above it, with both buds open, and counts one
metamer; if in the first iteration the growth query of the axillary bud and then that of
the terminal bud both return `q = 1`, the iteration succeeds, the tree counts three
metamers and both sides of the root hold a childless metamer. -/
theorem seedling_scenario (ms : MarkerSetOps σ α) (c : Constants α) (pow : α → α → α)
    (env : Environment σ) (p : Point α) :
    (Tree.create c env p).1.countMetamers = 1 ∧
    match (Tree.create c env p).1.root with
    | .null => False
    | .node d ax term =>
      ax = .null ∧ term = .null ∧ d.beginning = p
        ∧ d.end_ = p.translate 0 c.MetamerLength 0 ∧
      (let env0 := (Tree.create c env p).2
       let dir := Vector.ofPoints d.beginning d.end_
       let s2 := allocateMarkers ms c (.node d ax term) (ms.resetAllocations env0.markerSet)
       let qA := ms.getAllocatedInCone s2 d.axillaryId d.end_ dir
         c.PerceptionAngle c.PerceptionRadius
       let shootV := qA.v.scale c.MetamerLength
       let sA := ms.removeMarkersInSphere s2 (d.end_.translate shootV.x shootV.y shootV.z)
         c.OccupancyRadius
       let qT := ms.getAllocatedInCone sA d.terminalId d.end_ dir
         c.PerceptionAngle c.PerceptionRadius
       qA.q = 1 → qT.q = 1 →
         ∃ t1 env1 d1 dA dT,
           Tree.performGrowthIteration ms c pow (Tree.create c env p).1 env0 = some (t1, env1)
             ∧ t1.countMetamers = 3
             ∧ t1.root = .node d1 (.node dA .null .null) (.node dT .null .null)) := by
  refine ⟨rfl, ?_⟩
  simp only [Tree.create, Metamer.create, allocateMarkers, Metamer.isNull, if_true, true_and]
  intro hA hT
  simp [Tree.performGrowthIteration, determineBudFate, propagateLightBasipetally,
    propagateGrowthAcropetally, performGrowthIterationMetamer, attemptGrowth,
    updateInternodeWidths, allocateMarkers, Metamer.isNull, Metamer.create,
    Tree.countMetamers, Metamer.countMetamers, hA, hT]

/-- Witness of C7: the seedling at the origin in a field where every query reports full
light. -/
theorem seedling_scenario_witness :
    ∃ t1 env1 d1 dA dT,
      Tree.performGrowthIteration (constantLight ℚ 1) (exampleConstants ℚ) (fun x _ => x)
          (Tree.create (exampleConstants ℚ) exampleEnvironment ⟨0, 0, 0⟩).1
          (Tree.create (exampleConstants ℚ) exampleEnvironment ⟨0, 0, 0⟩).2 = some (t1, env1)
        ∧ t1.countMetamers = 3
        ∧ t1.root = .node d1 (.node dA .null .null) (.node dT .null .null) :=
  (seedling_scenario (constantLight ℚ 1) (exampleConstants ℚ) (fun x _ => x)
    exampleEnvironment ⟨0, 0, 0⟩).2.2.2.2.2 rfl rfl

/-- C8 (starved growth): when no cone query ever reports `q = 1`, any number of consecutive
iterations on a tree with a root succeeds and leaves the shape of the tree and its count
of metamers as they were; on a freshly built seedling the count stays one. -/
theorem starved_growth (ms : MarkerSetOps σ α) (c : Constants α) (pow : α → α → α)
    (hq : ∀ s b o dir theta r, (ms.getAllocatedInCone s b o dir theta r).q ≠ 1) :
    (∀ (t : Tree α) (env : Environment σ) (n : Nat), t.root.isNull = false →
      ∃ t1 env1, Tree.performGrowthIterations ms c pow n t env = some (t1, env1)
        ∧ t1.root.shape = t.root.shape ∧ t1.countMetamers = t.countMetamers) ∧
    (∀ (env : Environment σ) (p : Point α) (n : Nat),
      ∃ t1 env1, Tree.performGrowthIterations ms c pow n (Tree.create c env p).1
          (Tree.create c env p).2 = some (t1, env1) ∧ t1.countMetamers = 1) := by
  constructor
  · intro t env n hroot
    obtain ⟨t1, env1, h, hs⟩ := performGrowthIterations_starved ms c pow hq n t env hroot
    exact ⟨t1, env1, h, hs, Tree.countMetamers_of_shape t t1 hs⟩
  · intro env p n
    obtain ⟨t1, env1, h, hs⟩ := performGrowthIterations_starved ms c pow hq n
      (Tree.create c env p).1 (Tree.create c env p).2 rfl
    exact ⟨t1, env1, h, (Tree.countMetamers_of_shape _ t1 hs).trans rfl⟩

/-- Witness of C8: three iterations of the seedling at the origin in an empty field, where
every query reports `q = 0`. -/
theorem starved_growth_witness :
    (∀ s b o dir theta r, ((constantLight ℚ 0).getAllocatedInCone s b o dir theta r).q ≠ 1) ∧
    ∃ t1 env1, Tree.performGrowthIterations (constantLight ℚ 0) (exampleConstants ℚ)
        (fun x _ => x) 3
        (Tree.create (exampleConstants ℚ) exampleEnvironment ⟨0, 0, 0⟩).1
        (Tree.create (exampleConstants ℚ) exampleEnvironment ⟨0, 0, 0⟩).2 = some (t1, env1)
      ∧ t1.countMetamers = 1 :=
  ⟨by simp [constantLight],
   (starved_growth (constantLight ℚ 0) (exampleConstants ℚ) (fun x _ => x)
    (by simp [constantLight])).2 exampleEnvironment ⟨0, 0, 0⟩ 3⟩

end Scenarios


/-! ## Pipe model -/

section PipeGeneric

variable {α : Type} [Field α]

/-- One step of the width pass, with the total written as one leaf value plus what the
closed sides add. -/
theorem updateInternodeWidths_node (pow : α → α → α) (e leaf : α) (d : MetamerData α)
    (ax term : Metamer α) :
    updateInternodeWidths pow e leaf (.node d ax term) =
      .node { d with width := pow (leaf
          + closedContribution pow e (updateInternodeWidths pow e leaf ax)
          + closedContribution pow e (updateInternodeWidths pow e leaf term)) (1 / e) }
        (updateInternodeWidths pow e leaf ax) (updateInternodeWidths pow e leaf term) := by
  simp only [updateInternodeWidths]
  cases updateInternodeWidths pow e leaf ax <;>
    cases updateInternodeWidths pow e leaf term <;>
    simp [closedContribution]

/-- The width pass returns the tree it was given with new values of `width` only. -/
theorem updateInternodeWidths_sameExceptWidth (pow : α → α → α) (e leaf : α)
    (t : Metamer α) : SameExceptWidth t (updateInternodeWidths pow e leaf t) := by
  induction t with
  | null => trivial
  | node d ax term ihA ihT =>
    rw [updateInternodeWidths_node]
    simp only [SameExceptWidth]
    exact ⟨trivial, ihA, ihT⟩

/-- The width pass writes at every metamer the `1 / e` power of its total. -/
theorem updateInternodeWidths_computed (pow : α → α → α) (e leaf : α) (t : Metamer α) :
    WidthsComputed pow e leaf (updateInternodeWidths pow e leaf t) := by
  induction t with
  | null => trivial
  | node d ax term ihA ihT =>
    rw [updateInternodeWidths_node]
    exact ⟨rfl, ihA, ihT⟩

end PipeGeneric

section PipeReal

/-- What a closed side adds is never negative when the child has a positive width. -/
theorem closedContribution_nonneg (e : ℝ) (t : Metamer ℝ) (h : rootWidthPositive t) :
    0 ≤ closedContribution Real.rpow e t := by
  cases t with
  | null => simp [closedContribution]
  | node d ax term => exact Real.rpow_nonneg (le_of_lt h) e

/-- A child of positive width is no wider than the root of any total that includes its
contribution. -/
theorem childNoWiderThan_of_le (e total : ℝ) (he : 0 < e) (t : Metamer ℝ)
    (h : rootWidthPositive t) (hle : closedContribution Real.rpow e t ≤ total) :
    childNoWiderThan (Real.rpow total (1 / e)) t := by
  cases t with
  | null => trivial
  | node d ax term =>
    have hw : (0 : ℝ) ≤ d.width := le_of_lt h
    have h1 : (d.width ^ e) ^ (1 / e) = d.width := by
      rw [one_div]
      exact Real.rpow_rpow_inv hw (ne_of_gt he)
    have h2 : (d.width ^ e) ^ (1 / e) ≤ total ^ (1 / e) :=
      Real.rpow_le_rpow (Real.rpow_nonneg hw e) hle (by positivity)
    show d.width ≤ total ^ (1 / e)
    rw [h1] at h2
    exact h2

/-- The three facts established together by the width pass over the reals: the pipe-model
formula, the positivity of the root width and the monotonicity of widths. -/
theorem updateInternodeWidths_facts (e leaf : ℝ) (he : 0 < e) (hl : 0 < leaf)
    (t : Metamer ℝ) :
    PipeModel Real.rpow e leaf (updateInternodeWidths Real.rpow e leaf t)
      ∧ rootWidthPositive (updateInternodeWidths Real.rpow e leaf t)
      ∧ WidthMonotone (updateInternodeWidths Real.rpow e leaf t) := by
  induction t with
  | null => exact ⟨trivial, trivial, trivial⟩
  | node d ax term ihA ihT =>
    obtain ⟨pA, wA, mA⟩ := ihA
    obtain ⟨pT, wT, mT⟩ := ihT
    rw [updateInternodeWidths_node]
    have cA := closedContribution_nonneg e _ wA
    have cT := closedContribution_nonneg e _ wT
    have htot : 0 < leaf
        + closedContribution Real.rpow e (updateInternodeWidths Real.rpow e leaf ax)
        + closedContribution Real.rpow e (updateInternodeWidths Real.rpow e leaf term) := by
      linarith
    refine ⟨⟨rfl, ?_, pA, pT⟩, ?_, ⟨?_, ?_, mA, mT⟩⟩
    · simp only [Real.rpow_eq_pow, one_div]
      exact Real.rpow_inv_rpow (le_of_lt htot) (ne_of_gt he)
    · exact Real.rpow_pos_of_pos htot _
    · exact childNoWiderThan_of_le e _ he _ wA (by linarith)
    · exact childNoWiderThan_of_le e _ he _ wT (by linarith)

/-- C9 (width monotonicity): with a positive exponent and a positive leaf value,
`updateInternodeWidths` returns the tree it was given, every metamer at its position with
all attributes but `width` as they were, each new width being the `1 / exponent` power of
the leaf value plus the contributions of the closed sides, and in the result every metamer
is at least as wide as each of its present children (`std::pow` read as the real
power). -/
theorem width_monotone (e leaf : ℝ) (he : 0 < e) (hl : 0 < leaf) (t : Metamer ℝ) :
    SameExceptWidth t (updateInternodeWidths Real.rpow e leaf t)
      ∧ WidthsComputed Real.rpow e leaf (updateInternodeWidths Real.rpow e leaf t)
      ∧ WidthMonotone (updateInternodeWidths Real.rpow e leaf t) :=
  ⟨updateInternodeWidths_sameExceptWidth Real.rpow e leaf t,
   updateInternodeWidths_computed Real.rpow e leaf t,
   (updateInternodeWidths_facts e leaf he hl t).2.2⟩

/-- Witness of C9: the constants of `Tree.cpp` on a fork with two childless children. -/
theorem width_monotone_witness :
    (0 : ℝ) < PipeModelExponent ∧ (0 : ℝ) < PipeModelLeafValue ∧
      SameExceptWidth (seededFork ℝ)
        (updateInternodeWidths Real.rpow PipeModelExponent PipeModelLeafValue (seededFork ℝ)) ∧
      WidthsComputed Real.rpow PipeModelExponent PipeModelLeafValue
        (updateInternodeWidths Real.rpow PipeModelExponent PipeModelLeafValue (seededFork ℝ)) ∧
      WidthMonotone
        (updateInternodeWidths Real.rpow PipeModelExponent PipeModelLeafValue (seededFork ℝ)) :=
  ⟨by norm_num [PipeModelExponent], by norm_num [PipeModelLeafValue],
   width_monotone PipeModelExponent PipeModelLeafValue (by norm_num [PipeModelExponent])
    (by norm_num [PipeModelLeafValue]) (seededFork ℝ)⟩

/-- C10 as worded, refuted on the source: for a metamer with both buds open the source
computes the width from one leaf value, `leaf ^ (1 / exponent)`, which differs from the
claimed `(leaf + leaf) ^ (1 / exponent)`. -/
theorem claimed_pipe_model_fails :
    updateInternodeWidths Real.rpow (PipeModelExponent : ℝ) PipeModelLeafValue
        (.node (segment ℝ 0 0 1 0 0) .null .null)
      = .node { segment ℝ 0 0 1 0 0 with
          width := (PipeModelLeafValue : ℝ) ^ (1 / (PipeModelExponent : ℝ)) } .null .null
    ∧ (PipeModelLeafValue : ℝ) ^ (1 / (PipeModelExponent : ℝ))
      ≠ (PipeModelLeafValue + PipeModelLeafValue) ^ (1 / (PipeModelExponent : ℝ))
    ∧ ¬ ClaimedPipeModel Real.rpow (PipeModelExponent : ℝ) PipeModelLeafValue
        (updateInternodeWidths Real.rpow PipeModelExponent PipeModelLeafValue
          (.node (segment ℝ 0 0 1 0 0) .null .null)) := by
  have h : (PipeModelLeafValue : ℝ) ^ (1 / (PipeModelExponent : ℝ))
      < (PipeModelLeafValue + PipeModelLeafValue) ^ (1 / (PipeModelExponent : ℝ)) :=
    Real.rpow_lt_rpow (by norm_num [PipeModelLeafValue]) (by norm_num [PipeModelLeafValue])
      (by norm_num [PipeModelExponent])
  refine ⟨?_, ne_of_lt h, ?_⟩
  · rw [updateInternodeWidths_node]
    simp [updateInternodeWidths, closedContribution]
  · rw [updateInternodeWidths_node]
    simp only [ClaimedPipeModel, updateInternodeWidths, closedContribution,
      claimedContribution, add_zero, and_true]
    exact ne_of_lt h

/-- C10 (pipe-model width formula, amended): with a positive exponent and a positive leaf
value, `updateInternodeWidths` returns the tree it was given, every metamer at its position
with all attributes but `width` as they were, and in the result every metamer has as width
the `1 / exponent` power of one leaf value plus, for each closed side, the updated width of
the child raised to the exponent; and its width raised to the exponent is that total.  So a
metamer with both buds open has `width ^ exponent = leaf` and one with both sides closed
has `width ^ exponent = leaf + axillary.width ^ exponent + terminal.width ^ exponent`. -/
theorem pipe_model_width (e leaf : ℝ) (he : 0 < e) (hl : 0 < leaf) (t : Metamer ℝ) :
    SameExceptWidth t (updateInternodeWidths Real.rpow e leaf t)
      ∧ PipeModel Real.rpow e leaf (updateInternodeWidths Real.rpow e leaf t) :=
  ⟨updateInternodeWidths_sameExceptWidth Real.rpow e leaf t,
   (updateInternodeWidths_facts e leaf he hl t).1⟩

/-- Witness of C10: the constants of `Tree.cpp` on a chain of three metamers. -/
theorem pipe_model_width_witness :
    (0 : ℝ) < PipeModelExponent ∧ (0 : ℝ) < PipeModelLeafValue ∧
      SameExceptWidth (chainOfThree ℝ)
        (updateInternodeWidths Real.rpow PipeModelExponent PipeModelLeafValue
          (chainOfThree ℝ)) ∧
      PipeModel Real.rpow PipeModelExponent PipeModelLeafValue
        (updateInternodeWidths Real.rpow PipeModelExponent PipeModelLeafValue
          (chainOfThree ℝ)) :=
  ⟨by norm_num [PipeModelExponent], by norm_num [PipeModelLeafValue],
   pipe_model_width PipeModelExponent PipeModelLeafValue (by norm_num [PipeModelExponent])
    (by norm_num [PipeModelLeafValue]) (chainOfThree ℝ)⟩

end PipeReal


/-! ## Geometry of a new shoot -/

section ShootGeometry

variable {α σ : Type} [Field α] [DecidableEq α]

/-- The result of `attemptGrowth` when the query reports `q = 1`: the marker field loses
the markers around the new end point and a childless metamer is built from the origin to
that point. -/
theorem attemptGrowth_of_eq (ms : MarkerSetOps σ α) (c : Constants α) (budId : BudId)
    (origin : Point α) (direction : Vector α) (env : Environment σ)
    (h : (ms.getAllocatedInCone env.markerSet budId origin direction
      c.PerceptionAngle c.PerceptionRadius).q = 1) :
    attemptGrowth ms c budId origin direction env =
      (let v := (ms.getAllocatedInCone env.markerSet budId origin direction
          c.PerceptionAngle c.PerceptionRadius).v
       let shootV := v.scale c.MetamerLength
       let shootEnd := origin.translate shootV.x shootV.y shootV.z
       Metamer.create
         { env with markerSet :=
             ms.removeMarkersInSphere env.markerSet shootEnd c.OccupancyRadius }
         origin shootEnd) := by
  simp [attemptGrowth, h]

/-- The result of `attemptGrowth` when the query reports another value than `1`: no
metamer, and the environment as it was. -/
theorem attemptGrowth_of_ne (ms : MarkerSetOps σ α) (c : Constants α) (budId : BudId)
    (origin : Point α) (direction : Vector α) (env : Environment σ)
    (h : (ms.getAllocatedInCone env.markerSet budId origin direction
      c.PerceptionAngle c.PerceptionRadius).q ≠ 1) :
    attemptGrowth ms c budId origin direction env = (.null, env) := by
  simp [attemptGrowth, h]

/-- C11 (new shoot geometry): whenever `attemptGrowth` finds `q = 1`, with queried mean
direction `v`, it returns a childless metamer whose beginning is the origin and whose end
is the origin moved by `MetamerLength * v`, component by component. -/
theorem new_shoot_geometry (ms : MarkerSetOps σ α) (c : Constants α) (budId : BudId)
    (origin : Point α) (direction : Vector α) (env : Environment σ)
    (h : (ms.getAllocatedInCone env.markerSet budId origin direction
      c.PerceptionAngle c.PerceptionRadius).q = 1) :
    ∃ d, (attemptGrowth ms c budId origin direction env).1 = .node d .null .null
      ∧ d.beginning = origin
      ∧ d.end_ =
        (let v := (ms.getAllocatedInCone env.markerSet budId origin direction
            c.PerceptionAngle c.PerceptionRadius).v
         ⟨origin.x + c.MetamerLength * v.x, origin.y + c.MetamerLength * v.y,
          origin.z + c.MetamerLength * v.z⟩) := by
  rw [attemptGrowth_of_eq ms c budId origin direction env h]
  refine ⟨_, rfl, rfl, ?_⟩
  simp [Point.translate, Vector.scale, mul_comm]

/-- Witness of C11: the terminal bud of a vertical unit segment, fully lit from the side
`(1, 0, 0)`. -/
theorem new_shoot_geometry_witness :
    ∃ d, (attemptGrowth (directedLight ℚ 1 ⟨1, 0, 0⟩) (exampleConstants ℚ) 1 ⟨0, 1, 0⟩
        ⟨0, 1, 0⟩ exampleEnvironment).1 = .node d .null .null
      ∧ d.beginning = ⟨0, 1, 0⟩ ∧ d.end_ = ⟨1, 1, 0⟩ := by
  obtain ⟨d, h1, h2, h3⟩ := new_shoot_geometry (directedLight ℚ 1 ⟨1, 0, 0⟩)
    (exampleConstants ℚ) 1 ⟨0, 1, 0⟩ ⟨0, 1, 0⟩ exampleEnvironment rfl
  refine ⟨d, h1, h2, ?_⟩
  rw [h3]
  simp [directedLight, exampleConstants]

/-- C12 as worded, refuted on the source: on a vertical metamer whose buds are fully lit
with mean direction `(1, 0, 0)`, both new shoots point along `(1, 0, 0)`, which is no
positive multiple of the direction `(0, 1, 0)` of the parent. -/
theorem shoot_ignores_parent_direction :
    ∃ d dA dT,
      (performGrowthIterationMetamer (directedLight ℚ 1 ⟨1, 0, 0⟩) (exampleConstants ℚ)
        (seedlingRoot ℚ) exampleEnvironment).1
          = .node d (.node dA .null .null) (.node dT .null .null)
      ∧ Vector.ofPoints d.beginning d.end_ = ⟨0, 1, 0⟩
      ∧ Vector.ofPoints dA.beginning dA.end_ = ⟨1, 0, 0⟩
      ∧ Vector.ofPoints dT.beginning dT.end_ = ⟨1, 0, 0⟩
      ∧ ¬ PositiveMultiple (Vector.ofPoints dA.beginning dA.end_)
          (Vector.ofPoints d.beginning d.end_)
      ∧ ¬ PositiveMultiple (Vector.ofPoints dT.beginning dT.end_)
          (Vector.ofPoints d.beginning d.end_) := by
  have hdir : ¬ PositiveMultiple (⟨1, 0, 0⟩ : Vector ℚ) ⟨0, 1, 0⟩ := by
    rintro ⟨k, _, hk⟩
    simp [Vector.scale] at hk
  refine ⟨_, _, _, rfl, ?_, ?_, ?_, ?_, ?_⟩ <;>
    simp [segment, Vector.ofPoints, Point.translate, Vector.scale, directedLight,
      exampleConstants] <;>
    exact hdir

/-- C12 (placement of a new shoot, amended): whenever the growth query of an open bud of
a metamer returns `q = 1` with mean direction `v`, the child put on that side is childless,
begins at the end of the parent and ends at that point translated by `v` scaled by
`MetamerLength`; this holds for the axillary side and, in the marker field as the axillary
side has left it, for the terminal side.  The direction handed to `attemptGrowth`, the one
of the parent, is only an argument of the cone query: two directions with the same answer
give the same result. -/
theorem shoot_direction (ms : MarkerSetOps σ α) (c : Constants α) :
    (∀ (d : MetamerData α) (term : Metamer α) (env : Environment σ),
      (ms.getAllocatedInCone env.markerSet d.axillaryId d.end_
        (Vector.ofPoints d.beginning d.end_) c.PerceptionAngle c.PerceptionRadius).q = 1 →
      ∃ dA term1,
        (performGrowthIterationMetamer ms c (.node d .null term) env).1
          = .node d (.node dA .null .null) term1
        ∧ dA.beginning = d.end_
        ∧ dA.end_ =
          (let shootV := (ms.getAllocatedInCone env.markerSet d.axillaryId d.end_
              (Vector.ofPoints d.beginning d.end_) c.PerceptionAngle
              c.PerceptionRadius).v.scale c.MetamerLength
           d.end_.translate shootV.x shootV.y shootV.z)) ∧
    (∀ (d : MetamerData α) (ax : Metamer α) (env : Environment σ),
      (ms.getAllocatedInCone
        (if ax.isNull then
          (attemptGrowth ms c d.axillaryId d.end_
            (Vector.ofPoints d.beginning d.end_) env).2
         else (performGrowthIterationMetamer ms c ax env).2).markerSet
        d.terminalId d.end_
        (Vector.ofPoints d.beginning d.end_) c.PerceptionAngle c.PerceptionRadius).q = 1 →
      ∃ ax1 dT,
        (performGrowthIterationMetamer ms c (.node d ax .null) env).1
          = .node d ax1 (.node dT .null .null)
        ∧ dT.beginning = d.end_
        ∧ dT.end_ =
          (let shootV := (ms.getAllocatedInCone
              (if ax.isNull then
                (attemptGrowth ms c d.axillaryId d.end_
                  (Vector.ofPoints d.beginning d.end_) env).2
               else (performGrowthIterationMetamer ms c ax env).2).markerSet
              d.terminalId d.end_
              (Vector.ofPoints d.beginning d.end_) c.PerceptionAngle
              c.PerceptionRadius).v.scale c.MetamerLength
           d.end_.translate shootV.x shootV.y shootV.z)) ∧
    (∀ (budId : BudId) (origin : Point α) (dir1 dir2 : Vector α) (env : Environment σ),
      ms.getAllocatedInCone env.markerSet budId origin dir1
          c.PerceptionAngle c.PerceptionRadius
        = ms.getAllocatedInCone env.markerSet budId origin dir2
          c.PerceptionAngle c.PerceptionRadius →
      attemptGrowth ms c budId origin dir1 env = attemptGrowth ms c budId origin dir2 env) := by
  refine ⟨?_, ?_, ?_⟩
  · intro d term env h
    have hp : (performGrowthIterationMetamer ms c (.node d .null term) env).1
        = .node d (attemptGrowth ms c d.axillaryId d.end_
            (Vector.ofPoints d.beginning d.end_) env).1
          (if term.isNull then
            attemptGrowth ms c d.terminalId d.end_ (Vector.ofPoints d.beginning d.end_)
              (attemptGrowth ms c d.axillaryId d.end_
                (Vector.ofPoints d.beginning d.end_) env).2
           else performGrowthIterationMetamer ms c term
              (attemptGrowth ms c d.axillaryId d.end_
                (Vector.ofPoints d.beginning d.end_) env).2).1 := rfl
    rw [attemptGrowth_of_eq ms c _ _ _ env h] at hp
    exact ⟨_, _, hp, rfl, rfl⟩
  · intro d ax env h
    have hp : (performGrowthIterationMetamer ms c (.node d ax .null) env).1
        = .node d
          (if ax.isNull then
            attemptGrowth ms c d.axillaryId d.end_ (Vector.ofPoints d.beginning d.end_) env
           else performGrowthIterationMetamer ms c ax env).1
          (attemptGrowth ms c d.terminalId d.end_ (Vector.ofPoints d.beginning d.end_)
            (if ax.isNull then
              attemptGrowth ms c d.axillaryId d.end_ (Vector.ofPoints d.beginning d.end_) env
             else performGrowthIterationMetamer ms c ax env).2).1 := rfl
    have h1 : (ms.getAllocatedInCone
        (if ax.isNull then
          attemptGrowth ms c d.axillaryId d.end_ (Vector.ofPoints d.beginning d.end_) env
         else performGrowthIterationMetamer ms c ax env).2.markerSet
        d.terminalId d.end_
        (Vector.ofPoints d.beginning d.end_) c.PerceptionAngle c.PerceptionRadius).q = 1 := by
      cases ax <;> exact h
    rw [attemptGrowth_of_eq ms c _ _ _ _ h1] at hp
    refine ⟨_, _, hp, rfl, ?_⟩
    cases ax <;> rfl
  · intro budId origin dir1 dir2 env h
    simp only [attemptGrowth, h]

/-- Witness of C12: the axillary bud of a vertical unit segment, fully lit from the side
`(1, 0, 0)`: the child goes from the end `(0, 1, 0)` of the parent to `(1, 1, 0)`. -/
theorem shoot_direction_witness :
    ∃ dA term1,
      (performGrowthIterationMetamer (directedLight ℚ 1 ⟨1, 0, 0⟩) (exampleConstants ℚ)
        (seedlingRoot ℚ) exampleEnvironment).1
          = .node (segment ℚ 0 0 1 0 0) (.node dA .null .null) term1
        ∧ dA.beginning = ⟨0, 1, 0⟩ ∧ dA.end_ = ⟨1, 1, 0⟩ := by
  obtain ⟨dA, term1, h1, h2, h3⟩ := (shoot_direction (directedLight ℚ 1 ⟨1, 0, 0⟩)
    (exampleConstants ℚ)).1 (segment ℚ 0 0 1 0 0) .null exampleEnvironment rfl
  refine ⟨dA, term1, h1, ?_, ?_⟩
  · rw [h2]
    simp [segment]
  · rw [h3]
    simp [segment, directedLight, exampleConstants, Point.translate, Vector.scale]

end ShootGeometry

/-! ## Guard and earmarks of the acropetal split -/

section Guard

variable {α σ : Type} [Field α] [DecidableEq α]

/-- C14 (the starved-node guard leaves the state unchanged): when both children of a
metamer are absent, or the lights of its children (an absent child counting for zero) sum
to exactly zero, `propagateGrowthAcropetally` returns the metamer and its children exactly
as they were; and on a seedling root step 2 of the iteration leaves the growth resource at
`BorchertHondaAlpha * root.light`, the light being the sum of the two bud queries. -/
theorem starved_guard_unchanged (ms : MarkerSetOps σ α) (c : Constants α) :
    (∀ (d : MetamerData α) (ax term : Metamer α),
      (ax.isNull = true ∧ term.isNull = true) ∨ term.lightOrZero + ax.lightOrZero = 0 →
        propagateGrowthAcropetally c (.node d ax term) = .node d ax term) ∧
    (∀ (s : σ) (d : MetamerData α),
      determineBudFate ms c s (.node d .null .null) =
        some (.node
          { d with
            light := sideLight ms c s d d.axillaryId .null
              + sideLight ms c s d d.terminalId .null
            growthResource := c.BorchertHondaAlpha
              * (sideLight ms c s d d.axillaryId .null
                + sideLight ms c s d d.terminalId .null) }
          .null .null)) := by
  constructor
  · intro d ax term h
    rcases h with ⟨hA, hT⟩ | h
    · simp [propagateGrowthAcropetally, hA, hT]
    · simp [propagateGrowthAcropetally, h]
  · intro s d
    simp [determineBudFate, propagateLightBasipetally, propagateGrowthAcropetally,
      Metamer.isNull, sideLight]

/-- Witness of C14: a metamer holding the resource 4 whose only child has light zero. -/
theorem starved_guard_unchanged_witness :
    (((Metamer.node (segment ℚ 1 2 3 0 0) .null .null).isNull = true
        ∧ (Metamer.null : Metamer ℚ).isNull = true)
      ∨ (Metamer.null : Metamer ℚ).lightOrZero
        + (Metamer.node (segment ℚ 1 2 3 0 0) .null .null).lightOrZero = 0) ∧
    propagateGrowthAcropetally (exampleConstants ℚ)
        (.node (segment ℚ 0 0 1 4 4) (.node (segment ℚ 1 2 3 0 0) .null .null) .null)
      = .node (segment ℚ 0 0 1 4 4) (.node (segment ℚ 1 2 3 0 0) .null .null) .null :=
  ⟨Or.inr (by simp [Metamer.lightOrZero, segment]),
   (starved_guard_unchanged (constantLight ℚ 0) (exampleConstants ℚ)).1 _ _ _
    (Or.inr (by simp [Metamer.lightOrZero, segment]))⟩

/-- C15 (resource non-negativity), evaluated on the source: with every cone query at
`q = 1`, `BorchertHondaAlpha = 1` and `BorchertHondaLambda = 1/2`, step 2 of the iteration
on a root whose terminal bud is open and whose axillary child carries two childless
children computes the lights 2, 2, 4 and 5, seeds the root with 5 and writes the growth
resource `-10` into the axillary child. -/
theorem acropetal_negative_resource :
    determineBudFate (constantLight ℚ 1) (exampleConstants ℚ) () (lateralBush ℚ) =
      some (.node (segment ℚ 0 0 1 5 0)
        (.node (segment ℚ 1 2 3 4 (-10))
          (.node (segment ℚ 2 4 5 2 0) .null .null)
          (.node (segment ℚ 2 6 7 2 0) .null .null))
        .null) := by
  simp [determineBudFate, propagateLightBasipetally, propagateGrowthAcropetally,
    exampleConstants, constantLight, lateralBush, segment, Metamer.isNull,
    Metamer.lightOrZero, Metamer.withGrowthResource]
  norm_num

/-- C18 (the earmark of an open bud is zero): when `propagateGrowthAcropetally` distributes
at a metamer with exactly one closed side, the guard being passed and the denominator not
zero, the earmark of the open side receives exactly `0`, whatever the resource `v` and the
constants; the earmark of the closed side is `0` too, the resource of the metamer is `0`
and the child receives the share of its side. -/
theorem open_bud_earmark_zero (c : Constants α) (d dC : MetamerData α) (a b : Metamer α)
    (hq : dC.light ≠ 0) :
    (c.BorchertHondaLambda * dC.light + (1 - c.BorchertHondaLambda * 0) ≠ 0 →
      propagateGrowthAcropetally c (.node d .null (.node dC a b)) =
        .node { d with growthResource := 0, axillaryGrowthResource := 0,
                       terminalGrowthResource := 0 }
          .null
          (.node { dC with growthResource :=
              d.growthResource * (c.BorchertHondaLambda * dC.light)
                / (c.BorchertHondaLambda * dC.light + (1 - c.BorchertHondaLambda * 0)) }
            a b)) ∧
    (c.BorchertHondaLambda * 0 + (1 - c.BorchertHondaLambda * dC.light) ≠ 0 →
      propagateGrowthAcropetally c (.node d (.node dC a b) .null) =
        .node { d with growthResource := 0, axillaryGrowthResource := 0,
                       terminalGrowthResource := 0 }
          (.node { dC with growthResource :=
              d.growthResource * ((1 - c.BorchertHondaLambda) * dC.light)
                / (c.BorchertHondaLambda * 0 + (1 - c.BorchertHondaLambda * dC.light)) }
            a b)
          .null) := by
  constructor
  · intro _
    simp [propagateGrowthAcropetally, Metamer.isNull, Metamer.lightOrZero,
      Metamer.withGrowthResource, hq]
  · intro _
    simp [propagateGrowthAcropetally, Metamer.isNull, Metamer.lightOrZero,
      Metamer.withGrowthResource, hq]

/-- Witness of C18: a metamer holding the resource 3 whose terminal child has light 2 and
whose axillary bud is open. -/
theorem open_bud_earmark_zero_witness :
    (2 : ℚ) ≠ 0 ∧ (1 / 2 : ℚ) * 2 + (1 - 1 / 2 * 0) ≠ 0 ∧
    propagateGrowthAcropetally (exampleConstants ℚ)
        (.node (segment ℚ 0 0 1 2 3) .null (.node (segment ℚ 1 2 3 2 0) .null .null))
      = .node (segment ℚ 0 0 1 2 0) .null
          (.node (segment ℚ 1 2 3 2 (3 / 2)) .null .null) := by
  refine ⟨by norm_num, by norm_num, ?_⟩
  have h := (open_bud_earmark_zero (exampleConstants ℚ) (segment ℚ 0 0 1 2 3)
    (segment ℚ 1 2 3 2 0) .null .null (by simp [segment])).1
    (by simp [exampleConstants, segment])
  rw [h]
  simp [exampleConstants, segment]
  norm_num

end Guard

/-! ## The shoot-extension traversal and the shape of the tree -/

section NullCount

variable {α : Type}

/-- The empty pointer counts no metamer. -/
theorem countMetamers_of_isNull (t : Metamer α) (h : t.isNull = true) :
    t.countMetamers = 0 := by
  cases t with
  | null => rfl
  | node d ax term => simp [Metamer.isNull] at h

end NullCount

section ExtensionShape

variable {α σ : Type} [Field α] [DecidableEq α]

/-- What `attemptGrowth` returns carries no scalar state yet. -/
theorem attemptGrowth_shape (ms : MarkerSetOps σ α) (c : Constants α) (budId : BudId)
    (origin : Point α) (direction : Vector α) (env : Environment σ) :
    (attemptGrowth ms c budId origin direction env).1.shape
      = (attemptGrowth ms c budId origin direction env).1 := by
  by_cases h : (ms.getAllocatedInCone env.markerSet budId origin direction
      c.PerceptionAngle c.PerceptionRadius).q = 1
  · rw [attemptGrowth_of_eq ms c budId origin direction env h]
    rfl
  · rw [attemptGrowth_of_ne ms c budId origin direction env h]
    rfl

/-- What `attemptGrowth` returns is empty or childless. -/
theorem attemptGrowth_childless (ms : MarkerSetOps σ α) (c : Constants α) (budId : BudId)
    (origin : Point α) (direction : Vector α) (env : Environment σ) :
    (attemptGrowth ms c budId origin direction env).1.childless := by
  by_cases h : (ms.getAllocatedInCone env.markerSet budId origin direction
      c.PerceptionAngle c.PerceptionRadius).q = 1
  · rw [attemptGrowth_of_eq ms c budId origin direction env h]
    exact ⟨rfl, rfl⟩
  · rw [attemptGrowth_of_ne ms c budId origin direction env h]
    trivial

/-- The number of metamers `attemptGrowth` returns: one when `q = 1`, none otherwise. -/
theorem attemptGrowth_count (ms : MarkerSetOps σ α) (c : Constants α) (budId : BudId)
    (origin : Point α) (direction : Vector α) (env : Environment σ) :
    (attemptGrowth ms c budId origin direction env).1.countMetamers
      = List.count 1 [(ms.getAllocatedInCone env.markerSet budId origin direction
          c.PerceptionAngle c.PerceptionRadius).q] := by
  by_cases h : (ms.getAllocatedInCone env.markerSet budId origin direction
      c.PerceptionAngle c.PerceptionRadius).q = 1
  · rw [attemptGrowth_of_eq ms c budId origin direction env h, h]
    simp [Metamer.create, Metamer.countMetamers]
  · rw [attemptGrowth_of_ne ms c budId origin direction env h]
    have h0 : List.count (1 : α) [(ms.getAllocatedInCone env.markerSet budId origin direction
        c.PerceptionAngle c.PerceptionRadius).q] = 0 :=
      List.count_eq_zero.mpr (by simpa [eq_comm] using h)
    rw [h0]
    rfl

/-- The shoot-extension traversal reads only the shape of the tree: on the shape it
returns the shape of its result and the same environment. -/
theorem performGrowthIterationMetamer_shape (ms : MarkerSetOps σ α) (c : Constants α)
    (t : Metamer α) (env : Environment σ) :
    performGrowthIterationMetamer ms c t.shape env
      = ((performGrowthIterationMetamer ms c t env).1.shape,
         (performGrowthIterationMetamer ms c t env).2) := by
  induction t generalizing env with
  | null => rfl
  | node d ax term ihA ihT =>
    simp only [Metamer.shape, performGrowthIterationMetamer, isNull_shape, ihA, ihT]
    cases hA : ax.isNull <;> cases hT : term.isNull <;>
      simp [attemptGrowth_shape]

/-- The growth queries depend on the shape of the tree only. -/
theorem growthQueries_shape (ms : MarkerSetOps σ α) (c : Constants α)
    (t : Metamer α) (env : Environment σ) :
    growthQueries ms c t.shape env = growthQueries ms c t env := by
  induction t generalizing env with
  | null => rfl
  | node d ax term ihA ihT =>
    simp only [Metamer.shape, growthQueries, isNull_shape, ihA, ihT,
      performGrowthIterationMetamer_shape]

/-- There is one growth query per open bud. -/
theorem growthQueries_length (ms : MarkerSetOps σ α) (c : Constants α)
    (t : Metamer α) (env : Environment σ) :
    (growthQueries ms c t env).length = countOpenBuds t := by
  induction t generalizing env with
  | null => rfl
  | node d ax term ihA ihT =>
    simp only [growthQueries, countOpenBuds, List.length_append]
    cases hA : ax.isNull <;> cases hT : term.isNull <;> simp [ihA, ihT]

/-- The traversal adds one metamer for every growth query that returns `1`. -/
theorem performGrowthIterationMetamer_count (ms : MarkerSetOps σ α) (c : Constants α)
    (t : Metamer α) (env : Environment σ) :
    (performGrowthIterationMetamer ms c t env).1.countMetamers
      = t.countMetamers + List.count 1 (growthQueries ms c t env) := by
  induction t generalizing env with
  | null => rfl
  | node d ax term ihA ihT =>
    simp only [performGrowthIterationMetamer, growthQueries, Metamer.countMetamers,
      List.count_append]
    have a0 := countMetamers_of_isNull ax
    have t0 := countMetamers_of_isNull term
    cases hA : ax.isNull <;> cases hT : term.isNull <;>
      simp only [hA, hT, if_true, Bool.false_eq_true, if_false, attemptGrowth_count, ihA, ihT,
        true_implies, false_implies] at a0 t0 ⊢ <;> omega

end ExtensionShape

section OpenBuds

variable {α : Type}

/-- A tree with `n` metamers has `n + 1` open buds; the empty pointer has none. -/
theorem countOpenBuds_add (t : Metamer α) :
    countOpenBuds t + (if t.isNull then 1 else 0) = t.countMetamers + 1 := by
  induction t with
  | null => rfl
  | node d ax term ihA ihT =>
    have hn : (Metamer.node d ax term).isNull = false := rfl
    simp only [countOpenBuds, Metamer.countMetamers, hn]
    have a0 := countMetamers_of_isNull ax
    have t0 := countMetamers_of_isNull term
    cases hA : ax.isNull <;> cases hT : term.isNull <;>
      simp only [hA, hT, if_true, Bool.false_eq_true, if_false, true_implies,
        false_implies] at a0 t0 ihA ihT ⊢ <;> omega

/-- A tree with a root and `n` metamers has exactly `n + 1` open buds. -/
theorem countOpenBuds_eq (t : Metamer α) (h : t.isNull = false) :
    countOpenBuds t = t.countMetamers + 1 := by
  have h1 := countOpenBuds_add t
  simpa [h] using h1

end OpenBuds

/-! ## Old metamers stay, new shoots are childless -/

section Relations

variable {α : Type}

/-- A pointer whose test `!metamer` succeeds is the empty pointer. -/
theorem eq_null_of_isNull (t : Metamer α) (h : t.isNull = true) : t = .null := by
  cases t with
  | null => rfl
  | node d ax term => simp [Metamer.isNull] at h

/-- Any metamer has the same endpoints and bud identities as itself. -/
theorem sameSegment_refl (d : MetamerData α) : sameSegment d d :=
  ⟨rfl, rfl, rfl, rfl⟩

end Relations

section RelationsShape

variable {α σ : Type} [Field α]

/-- Being embedded depends on the shapes of the two trees only. -/
theorem embedded_shape_iff (t u : Metamer α) : Embedded t.shape u.shape ↔ Embedded t u := by
  induction t generalizing u with
  | null => simp [Metamer.shape, Embedded]
  | node d ax term ihA ihT =>
    cases u with
    | null => simp [Metamer.shape, Embedded]
    | node d1 a1 b1 => simp [Metamer.shape, Embedded, sameSegment, ihA, ihT]

/-- Erasing the scalar state keeps a metamer childless. -/
theorem childless_shape_iff (t : Metamer α) : t.shape.childless ↔ t.childless := by
  cases t with
  | null => rfl
  | node d a b =>
    cases a <;> cases b <;> simp [Metamer.shape, Metamer.childless]

/-- That the new shoots are childless depends on the shapes of the two trees only. -/
theorem newShootsChildless_shape_iff (t u : Metamer α) :
    NewShootsChildless t.shape u.shape ↔ NewShootsChildless t u := by
  induction t generalizing u with
  | null => simp [Metamer.shape, NewShootsChildless]
  | node d ax term ihA ihT =>
    cases u with
    | null => simp [Metamer.shape, NewShootsChildless]
    | node d1 a1 b1 =>
      simp [Metamer.shape, NewShootsChildless, isNull_shape, ihA, ihT, childless_shape_iff]

end RelationsShape

section ExtensionRelations

variable {α σ : Type} [Field α] [DecidableEq α]

/-- The shoot-extension traversal keeps every metamer of the tree in place. -/
theorem performGrowthIterationMetamer_embedded (ms : MarkerSetOps σ α) (c : Constants α)
    (t : Metamer α) (env : Environment σ) :
    Embedded t (performGrowthIterationMetamer ms c t env).1 := by
  induction t generalizing env with
  | null => trivial
  | node d ax term ihA ihT =>
    simp only [performGrowthIterationMetamer, Embedded]
    refine ⟨sameSegment_refl d, ?_, ?_⟩
    · cases hA : ax.isNull
      · simpa using ihA env
      · rw [eq_null_of_isNull ax hA]
        trivial
    · cases hT : term.isNull
      · simpa using ihT _
      · rw [eq_null_of_isNull term hT]
        trivial

/-- The shoot-extension traversal puts only childless metamers on open buds. -/
theorem performGrowthIterationMetamer_childless (ms : MarkerSetOps σ α) (c : Constants α)
    (t : Metamer α) (env : Environment σ) :
    NewShootsChildless t (performGrowthIterationMetamer ms c t env).1 := by
  induction t generalizing env with
  | null => trivial
  | node d ax term ihA ihT =>
    simp only [performGrowthIterationMetamer, NewShootsChildless]
    constructor
    · cases hA : ax.isNull
      · simpa using ihA env
      · simpa using attemptGrowth_childless ms c _ _ _ env
    · cases hT : term.isNull
      · simpa using ihT _
      · simpa using attemptGrowth_childless ms c _ _ _ _

/-- One iteration on a tree with a root, phase by phase: the marker field is reset and
claimed, step 2 yields a tree of the same shape, the shoot-extension traversal runs on it
and the widths are recomputed. -/
theorem performGrowthIteration_eq (ms : MarkerSetOps σ α) (c : Constants α)
    (pow : α → α → α) (t : Tree α) (env : Environment σ) (hroot : t.root.isNull = false) :
    ∃ root3, root3.shape = t.root.shape ∧
      determineBudFate ms c
        (allocateMarkers ms c t.root (ms.resetAllocations env.markerSet)) t.root = some root3 ∧
      Tree.performGrowthIteration ms c pow t env =
        some
          ({ root := updateInternodeWidths pow PipeModelExponent PipeModelLeafValue
              (performGrowthIterationMetamer ms c root3
                { env with markerSet :=
                    allocateMarkers ms c t.root (ms.resetAllocations env.markerSet) }).1 },
           (performGrowthIterationMetamer ms c root3
              { env with markerSet :=
                  allocateMarkers ms c t.root (ms.resetAllocations env.markerSet) }).2) := by
  obtain ⟨r, hr, hs⟩ := determineBudFate_shape ms c
    (allocateMarkers ms c t.root (ms.resetAllocations env.markerSet)) t.root hroot
  refine ⟨r, hs, hr, ?_⟩
  simp only [Tree.performGrowthIteration, hr]

end ExtensionRelations

section CountHelpers

variable {α : Type}

/-- The count of a tree is the count of its root pointer. -/
theorem Tree.countMetamers_eq (t : Tree α) : t.countMetamers = t.root.countMetamers := by
  unfold Tree.countMetamers
  cases h : t.root.isNull
  · simp
  · simp [countMetamers_of_isNull t.root h]

end CountHelpers

section CountShape

variable {α : Type} [Field α]

/-- Trees of the same shape have the same number of metamers. -/
theorem countMetamers_of_shape_eq (t u : Metamer α) (h : t.shape = u.shape) :
    t.countMetamers = u.countMetamers := by
  rw [← countMetamers_shape t, h, countMetamers_shape]

end CountShape

section IterationStructure

variable {α σ : Type} [Field α] [DecidableEq α]

/-- C13 (metamers are never destroyed, closed buds never reopen): one iteration on a tree
with a root succeeds, the tree it started from is embedded in the result (every metamer
is still at its position with the same beginning, end and bud identities, so every closed
side is still closed over the same child), and the count of metamers has not decreased. -/
theorem metamers_never_destroyed (ms : MarkerSetOps σ α) (c : Constants α)
    (pow : α → α → α) (t : Tree α) (env : Environment σ) (hroot : t.root.isNull = false) :
    ∃ t1 env1, Tree.performGrowthIteration ms c pow t env = some (t1, env1)
      ∧ Embedded t.root t1.root ∧ t.countMetamers ≤ t1.countMetamers := by
  obtain ⟨root3, hs, _, hEq⟩ := performGrowthIteration_eq ms c pow t env hroot
  refine ⟨_, _, hEq, ?_, ?_⟩
  · rw [← embedded_shape_iff]
    simp only [updateInternodeWidths_shape]
    rw [← hs, embedded_shape_iff]
    exact performGrowthIterationMetamer_embedded ms c root3 _
  · rw [Tree.countMetamers_eq, Tree.countMetamers_eq]
    simp only
    rw [countMetamers_of_shape_eq _ _ (updateInternodeWidths_shape pow _ _ _),
      performGrowthIterationMetamer_count, countMetamers_of_shape_eq _ _ hs]
    exact Nat.le_add_right _ _

/-- Witness of C13: the seedling at the origin in a field where every query reports full
light. -/
theorem metamers_never_destroyed_witness :
    ∃ t1 env1,
      Tree.performGrowthIteration (constantLight ℚ 1) (exampleConstants ℚ) (fun x _ => x)
          { root := seedlingRoot ℚ } exampleEnvironment = some (t1, env1)
        ∧ Embedded (seedlingRoot ℚ) t1.root
        ∧ (Tree.mk (seedlingRoot ℚ)).countMetamers ≤ t1.countMetamers :=
  metamers_never_destroyed (constantLight ℚ 1) (exampleConstants ℚ) (fun x _ => x)
    { root := seedlingRoot ℚ } exampleEnvironment rfl

/-- C19 (growth per iteration is bounded by the number of open buds): a tree with a root
and `n` metamers has `n + 1` open buds, the shoot-extension phase makes one growth query
per open bud, and one iteration succeeds with a tree that counts `n` plus the number of
queries that returned `1`, hence at most `2 n + 1` metamers; whatever stands on a formerly
open bud is childless; and the count is `2 n + 1` exactly when every growth query
returned `1`. -/
theorem growth_bounded_by_open_buds (ms : MarkerSetOps σ α) (c : Constants α)
    (pow : α → α → α) (t : Tree α) (env : Environment σ) (hroot : t.root.isNull = false) :
    countOpenBuds t.root = t.countMetamers + 1 ∧
    (growthQueries ms c t.root
        { env with markerSet :=
            allocateMarkers ms c t.root (ms.resetAllocations env.markerSet) }).length
      = countOpenBuds t.root ∧
    ∃ t1 env1, Tree.performGrowthIteration ms c pow t env = some (t1, env1)
      ∧ t1.countMetamers = t.countMetamers + List.count 1
          (growthQueries ms c t.root
            { env with markerSet :=
                allocateMarkers ms c t.root (ms.resetAllocations env.markerSet) })
      ∧ t1.countMetamers ≤ 2 * t.countMetamers + 1
      ∧ NewShootsChildless t.root t1.root
      ∧ (t1.countMetamers = 2 * t.countMetamers + 1 ↔
          ∀ q ∈ growthQueries ms c t.root
            { env with markerSet :=
                allocateMarkers ms c t.root (ms.resetAllocations env.markerSet) },
            q = 1) := by
  obtain ⟨root3, hs, _, hEq⟩ := performGrowthIteration_eq ms c pow t env hroot
  have hbuds : countOpenBuds t.root = t.countMetamers + 1 := by
    rw [Tree.countMetamers_eq]
    exact countOpenBuds_eq t.root hroot
  have hlen := growthQueries_length ms c t.root
    { env with markerSet := allocateMarkers ms c t.root (ms.resetAllocations env.markerSet) }
  have hqs : growthQueries ms c root3
      { env with markerSet := allocateMarkers ms c t.root (ms.resetAllocations env.markerSet) }
      = growthQueries ms c t.root
      { env with markerSet :=
          allocateMarkers ms c t.root (ms.resetAllocations env.markerSet) } := by
    rw [← growthQueries_shape ms c root3, hs, growthQueries_shape]
  have hcount : (updateInternodeWidths pow PipeModelExponent PipeModelLeafValue
      (performGrowthIterationMetamer ms c root3
        { env with markerSet :=
            allocateMarkers ms c t.root (ms.resetAllocations env.markerSet) }).1).countMetamers
      = t.countMetamers + List.count 1 (growthQueries ms c t.root
          { env with markerSet :=
              allocateMarkers ms c t.root (ms.resetAllocations env.markerSet) }) := by
    rw [countMetamers_of_shape_eq _ _ (updateInternodeWidths_shape pow _ _ _),
      performGrowthIterationMetamer_count, countMetamers_of_shape_eq _ _ hs, hqs,
      Tree.countMetamers_eq]
  have hle := List.count_le_length (1 : α) (growthQueries ms c t.root
    { env with markerSet := allocateMarkers ms c t.root (ms.resetAllocations env.markerSet) })
  refine ⟨hbuds, hlen, _, _, hEq, ?_, ?_, ?_, ?_⟩
  · rw [Tree.countMetamers_eq]
    exact hcount
  · rw [Tree.countMetamers_eq]
    simp only
    rw [hcount]
    omega
  · rw [← newShootsChildless_shape_iff]
    simp only [updateInternodeWidths_shape]
    rw [← hs, newShootsChildless_shape_iff]
    exact performGrowthIterationMetamer_childless ms c root3 _
  · rw [Tree.countMetamers_eq]
    simp only
    rw [hcount]
    constructor
    · intro h q hq
      have h1 : List.count 1 (growthQueries ms c t.root
          { env with markerSet :=
              allocateMarkers ms c t.root (ms.resetAllocations env.markerSet) })
          = (growthQueries ms c t.root
          { env with markerSet :=
              allocateMarkers ms c t.root (ms.resetAllocations env.markerSet) }).length := by
        omega
      exact (List.count_eq_length.mp h1 q hq).symm
    · intro h
      have h1 : List.count 1 (growthQueries ms c t.root
          { env with markerSet :=
              allocateMarkers ms c t.root (ms.resetAllocations env.markerSet) })
          = (growthQueries ms c t.root
          { env with markerSet :=
              allocateMarkers ms c t.root (ms.resetAllocations env.markerSet) }).length :=
        List.count_eq_length.mpr (fun q hq => (h q hq).symm)
      omega

/-- Witness of C19: the seedling at the origin in a field where every query reports full
light grows from one metamer to three. -/
theorem growth_bounded_by_open_buds_witness :
    ∃ t1 env1,
      Tree.performGrowthIteration (constantLight ℚ 1) (exampleConstants ℚ) (fun x _ => x)
          { root := seedlingRoot ℚ } exampleEnvironment = some (t1, env1)
        ∧ t1.countMetamers ≤ 2 * (Tree.mk (seedlingRoot ℚ)).countMetamers + 1
        ∧ NewShootsChildless (seedlingRoot ℚ) t1.root := by
  obtain ⟨_, _, t1, env1, h1, _, h3, h4, _⟩ :=
    growth_bounded_by_open_buds (constantLight ℚ 1) (exampleConstants ℚ) (fun x _ => x)
      { root := seedlingRoot ℚ } exampleEnvironment rfl
  exact ⟨t1, env1, h1, h3, h4⟩

end IterationStructure

/-! ## Calls made on the marker field -/

section RecordedClaims

variable {α : Type} [Field α]

/-- On the recording marker field, `allocateMarkers` appends the claims of the open buds
to the history. -/
theorem allocateMarkers_recorded
    (answer : List (Call α) → BudId → Point α → Vector α → α → α → Analysis α)
    (c : Constants α) (t : Metamer α) (log : List (Call α)) :
    allocateMarkers (recordingMarkerSet answer) c t log = log ++ openBudClaims c t := by
  induction t generalizing log with
  | null => simp [allocateMarkers, openBudClaims]
  | node d ax term ihA ihT =>
    simp only [allocateMarkers, openBudClaims, ihA, ihT]
    cases hA : ax.isNull <;> cases hT : term.isNull <;>
      simp [recordingMarkerSet, budClaim]

/-- There is one claim per open bud. -/
theorem openBudClaims_length (c : Constants α) (t : Metamer α) :
    (openBudClaims c t).length = countOpenBuds t := by
  induction t with
  | null => rfl
  | node d ax term ihA ihT =>
    simp only [openBudClaims, countOpenBuds, List.length_append]
    cases hA : ax.isNull <;> cases hT : term.isNull <;> simp [ihA, ihT]

end RecordedClaims

section Recorded

variable {α : Type} [Field α] [DecidableEq α]

/-- C16 (marker-allocation traversal): on a marker field that records its mutating calls,
`allocateMarkers` appends to the history exactly the claims of the open buds of the tree,
one `updateAllocatedInCone` per open bud and none for a closed side, each with the bud
identity, the end of its metamer, the direction `end - beginning` and the perception
constants, depth first with the axillary side of each metamer before its terminal side;
and one iteration is: one `resetAllocations`, then these claims, and only then step 2 and
the later phases, whose cone queries are all answered from a history that already holds
the reset and every claim. -/
theorem marker_allocation_traversal
    (answer : List (Call α) → BudId → Point α → Vector α → α → α → Analysis α)
    (c : Constants α) :
    (∀ (t : Metamer α) (log : List (Call α)),
      allocateMarkers (recordingMarkerSet answer) c t log = log ++ openBudClaims c t) ∧
    (∀ t : Metamer α, (openBudClaims c t).length = countOpenBuds t) ∧
    (∀ (pow : α → α → α) (t : Tree α) (env : Environment (List (Call α))),
      Tree.performGrowthIteration (recordingMarkerSet answer) c pow t env =
        (determineBudFate (recordingMarkerSet answer) c
            (env.markerSet ++ [Call.reset] ++ openBudClaims c t.root) t.root).map
          (fun root3 =>
            ({ root := updateInternodeWidths pow PipeModelExponent PipeModelLeafValue
                (performGrowthIterationMetamer (recordingMarkerSet answer) c root3
                  { env with markerSet :=
                      env.markerSet ++ [Call.reset] ++ openBudClaims c t.root }).1 },
             (performGrowthIterationMetamer (recordingMarkerSet answer) c root3
                { env with markerSet :=
                    env.markerSet ++ [Call.reset] ++ openBudClaims c t.root }).2))) := by
  refine ⟨allocateMarkers_recorded answer c, openBudClaims_length c, ?_⟩
  intro pow t env
  have hs : allocateMarkers (recordingMarkerSet answer) c t.root
      ((recordingMarkerSet answer).resetAllocations env.markerSet)
      = env.markerSet ++ [Call.reset] ++ openBudClaims c t.root := by
    rw [allocateMarkers_recorded]
    rfl
  simp only [Tree.performGrowthIteration, hs]
  cases determineBudFate (recordingMarkerSet answer) c
    (env.markerSet ++ [Call.reset] ++ openBudClaims c t.root) t.root <;> rfl

end Recorded

section RecordedRemovals

variable {α : Type} [Field α] [DecidableEq α]

/-- On the recording marker field, `attemptGrowth` appends one removal, centred on the end
of the metamer it returns, when it returns one, and nothing otherwise. -/
theorem attemptGrowth_recorded
    (answer : List (Call α) → BudId → Point α → Vector α → α → α → Analysis α)
    (c : Constants α) (budId : BudId) (origin : Point α) (direction : Vector α)
    (env : Environment (List (Call α))) :
    (attemptGrowth (recordingMarkerSet answer) c budId origin direction env).2.markerSet
      = env.markerSet
        ++ (attemptGrowth (recordingMarkerSet answer) c budId origin direction env).1.rootData.map
            (fun d => Call.remove d.end_ c.OccupancyRadius) := by
  by_cases h : ((recordingMarkerSet answer).getAllocatedInCone env.markerSet budId origin
      direction c.PerceptionAngle c.PerceptionRadius).q = 1
  · rw [attemptGrowth_of_eq _ c budId origin direction env h]
    simp [Metamer.create, Metamer.rootData, recordingMarkerSet]
  · rw [attemptGrowth_of_ne _ c budId origin direction env h]
    simp [Metamer.rootData]

/-- The number of metamers `attemptGrowth` returns, read off the pointer. -/
theorem attemptGrowth_rootData_length {σ : Type} (ms : MarkerSetOps σ α) (c : Constants α)
    (budId : BudId) (origin : Point α) (direction : Vector α) (env : Environment σ) :
    (attemptGrowth ms c budId origin direction env).1.rootData.length
      = List.count 1 [(ms.getAllocatedInCone env.markerSet budId origin direction
          c.PerceptionAngle c.PerceptionRadius).q] := by
  rw [← attemptGrowth_count]
  by_cases h : (ms.getAllocatedInCone env.markerSet budId origin direction
      c.PerceptionAngle c.PerceptionRadius).q = 1
  · rw [attemptGrowth_of_eq ms c budId origin direction env h]
    simp [Metamer.create, Metamer.rootData, Metamer.countMetamers]
  · rw [attemptGrowth_of_ne ms c budId origin direction env h]
    rfl

/-- The new shoots of the shoot-extension traversal are as many as the growth queries that
returned `1`. -/
theorem newShoots_length {σ : Type} (ms : MarkerSetOps σ α) (c : Constants α)
    (t : Metamer α) (env : Environment σ) :
    (newShoots t (performGrowthIterationMetamer ms c t env).1).length
      = List.count 1 (growthQueries ms c t env) := by
  induction t generalizing env with
  | null => rfl
  | node d ax term ihA ihT =>
    simp only [performGrowthIterationMetamer, newShoots, growthQueries, List.length_append,
      List.count_append]
    cases hA : ax.isNull <;> cases hT : term.isNull <;>
      simp only [if_true, Bool.false_eq_true, if_false, attemptGrowth_rootData_length,
        ihA, ihT]

/-- On the recording marker field, the shoot-extension traversal appends to the history
one removal per new shoot, in traversal order, and nothing else. -/
theorem performGrowthIterationMetamer_recorded
    (answer : List (Call α) → BudId → Point α → Vector α → α → α → Analysis α)
    (c : Constants α) (t : Metamer α) (env : Environment (List (Call α))) :
    (performGrowthIterationMetamer (recordingMarkerSet answer) c t env).2.markerSet
      = env.markerSet
        ++ (newShoots t
            (performGrowthIterationMetamer (recordingMarkerSet answer) c t env).1).map
          (fun d => Call.remove d.end_ c.OccupancyRadius) := by
  induction t generalizing env with
  | null => simp [performGrowthIterationMetamer, newShoots]
  | node d ax term ihA ihT =>
    simp only [performGrowthIterationMetamer, newShoots, List.map_append]
    cases hA : ax.isNull <;> cases hT : term.isNull <;>
      simp only [if_true, Bool.false_eq_true, if_false, attemptGrowth_recorded, ihA, ihT,
        List.append_assoc]

/-- C17 (occupancy removal accompanies exactly the created shoots): on a marker field that
records its mutating calls, the shoot-extension traversal appends to the history exactly
one `removeMarkersInSphere` per metamer it creates, centred on the end of that metamer with
radius `OccupancyRadius`, and nothing else; these calls are as many as the growth queries
that returned `1` and as the increase of the count of metamers; if the count does not
increase the history is unchanged; and over a whole iteration on a tree with a root the
history gains one reset, the claims of the open buds and then one removal per created
metamer, their number being the increase of `countMetamers`. -/
theorem occupancy_removal_per_shoot
    (answer : List (Call α) → BudId → Point α → Vector α → α → α → Analysis α)
    (c : Constants α) :
    (∀ (t : Metamer α) (env : Environment (List (Call α))),
      (performGrowthIterationMetamer (recordingMarkerSet answer) c t env).2.markerSet
        = env.markerSet
          ++ (newShoots t
              (performGrowthIterationMetamer (recordingMarkerSet answer) c t env).1).map
            (fun d => Call.remove d.end_ c.OccupancyRadius)
      ∧ (newShoots t
            (performGrowthIterationMetamer (recordingMarkerSet answer) c t env).1).length
          = List.count 1 (growthQueries (recordingMarkerSet answer) c t env)
      ∧ (performGrowthIterationMetamer (recordingMarkerSet answer) c t env).1.countMetamers
          = t.countMetamers
            + (newShoots t
                (performGrowthIterationMetamer (recordingMarkerSet answer) c t env).1).length
      ∧ ((performGrowthIterationMetamer (recordingMarkerSet answer) c t env).1.countMetamers
            = t.countMetamers →
          (performGrowthIterationMetamer (recordingMarkerSet answer) c t env).2.markerSet
            = env.markerSet)) ∧
    (∀ (pow : α → α → α) (t : Tree α) (env : Environment (List (Call α))),
      t.root.isNull = false →
      ∃ (t1 : Tree α) (env1 : Environment (List (Call α))) (created : List (MetamerData α)),
        Tree.performGrowthIteration (recordingMarkerSet answer) c pow t env = some (t1, env1)
          ∧ env1.markerSet = env.markerSet ++ [Call.reset] ++ openBudClaims c t.root
              ++ created.map (fun d => Call.remove d.end_ c.OccupancyRadius)
          ∧ t1.countMetamers = t.countMetamers + created.length) := by
  have hphase : ∀ (t : Metamer α) (env : Environment (List (Call α))),
      (performGrowthIterationMetamer (recordingMarkerSet answer) c t env).1.countMetamers
        = t.countMetamers
          + (newShoots t
              (performGrowthIterationMetamer (recordingMarkerSet answer) c t env).1).length := by
    intro t env
    rw [newShoots_length, performGrowthIterationMetamer_count]
  constructor
  · intro t env
    refine ⟨performGrowthIterationMetamer_recorded answer c t env,
      newShoots_length _ c t env, hphase t env, ?_⟩
    intro h
    have h0 : (newShoots t
        (performGrowthIterationMetamer (recordingMarkerSet answer) c t env).1).length = 0 := by
      have := hphase t env
      omega
    rw [performGrowthIterationMetamer_recorded, List.length_eq_zero.mp h0]
    simp
  · intro pow t env hroot
    obtain ⟨root3, hs, _, hEq⟩ :=
      performGrowthIteration_eq (recordingMarkerSet answer) c pow t env hroot
    refine ⟨_, _,
      newShoots root3 (performGrowthIterationMetamer (recordingMarkerSet answer) c root3
        { env with markerSet :=
            (allocateMarkers (recordingMarkerSet answer) c t.root
              ((recordingMarkerSet answer).resetAllocations env.markerSet)) }).1,
      hEq, ?_, ?_⟩
    · rw [performGrowthIterationMetamer_recorded, allocateMarkers_recorded]
      rfl
    · rw [Tree.countMetamers_eq, Tree.countMetamers_eq]
      simp only
      rw [countMetamers_of_shape_eq _ _ (updateInternodeWidths_shape pow _ _ _), hphase,
        countMetamers_of_shape_eq _ _ hs]

/-- Witness of C17: the seedling at the origin on the recording marker field with full
light everywhere: one reset, two claims, two removals, and two more metamers. -/
theorem occupancy_removal_per_shoot_witness :
    ∃ (t1 : Tree ℚ) (env1 : Environment (List (Call ℚ))) (created : List (MetamerData ℚ)),
      Tree.performGrowthIteration
          (recordingMarkerSet (fun _ _ _ _ _ _ => ({ q := 1, v := ⟨0, 1, 0⟩ } : Analysis ℚ)))
          (exampleConstants ℚ) (fun x _ => x) { root := seedlingRoot ℚ }
          { markerSet := [], nextBudId := 2 } = some (t1, env1)
        ∧ env1.markerSet = [] ++ [Call.reset]
            ++ openBudClaims (exampleConstants ℚ) (seedlingRoot ℚ)
            ++ created.map (fun d => Call.remove d.end_ (exampleConstants ℚ).OccupancyRadius)
        ∧ t1.countMetamers = (Tree.mk (seedlingRoot ℚ)).countMetamers + created.length :=
  (occupancy_removal_per_shoot (fun _ _ _ _ _ _ => ({ q := 1, v := ⟨0, 1, 0⟩ } : Analysis ℚ))
    (exampleConstants ℚ)).2 (fun x _ => x) { root := seedlingRoot ℚ }
    { markerSet := [], nextBudId := 2 } rfl

end RecordedRemovals

end SelfOrganizing
